import Mathlib

/-!
Verification of the 3D drone scene viewer: SceneManager and ViewManager.

A shallow embedding of `Source/SceneManager.cpp` (texture registry, material
table) and `Source/ViewManager.cpp` (camera / projection controller), with the
properties of the specification stated and proved over it.

Conventions of the embedding.

* C++ `float` values are modelled as exact rationals (`ℚ`): arithmetic on
  floats is exact and there is no NaN.  The conversion of a `double` to
  `float` (`static_cast<float>`) does round; it is the parameter
  `CameraLib.toFloat` of the model.
* A `GLuint` is a natural number taken modulo 2^32; its assignment to an
  `int` gives the 32-bit two's complement value (`GLuintToInt`).
* The array `m_textureIDs` is declared in `SceneManager.h`, which is not among
  the sources.  It is modelled as a map from index to entry, and no bound is
  placed on its extent.
* Calls into OpenGL, stb_image and GLFW appear as explicit arguments carrying
  what the call returned (the decoded image, the generated texture name, the
  state of each key).
* The matrices of `glm` are defined over an arbitrary field of scalars, with
  cosine, sine, inverse square root and pi as parameters, so that the same
  definitions serve the rational model of `float` and the reals.
* Rendering is modelled by the list of uniform writes, OpenGL calls and draw
  calls a function issues, in the order of execution.
-/

set_option autoImplicit false

namespace glm

/-- Three-component vector of floats (`glm::vec3`). -/
structure vec3 where
  x : ℚ
  y : ℚ
  z : ℚ
deriving DecidableEq

end glm

namespace SceneManager

/-! ## Texture registry and material table (`SceneManager.cpp`) -/

/-- Entry of `m_textureIDs`: the tag and the OpenGL texture name, a `GLuint`
(32-bit unsigned; every use reads the number modulo 2^32). -/
structure TEXTURE_INFO where
  tag : String
  ID : Nat

/-- Material record, with the five value fields `FindMaterial` copies and the tag. -/
structure OBJECT_MATERIAL where
  ambientStrength : ℚ
  ambientColor : glm.vec3
  diffuseColor : glm.vec3
  specularColor : glm.vec3
  shininess : ℚ
  tag : String
deriving DecidableEq

/-- The members of `SceneManager` that hold the texture registry and the
material table.  `m_textureIDs i` is the array element at index `i`; the
registered entries are those at indices below `m_loadedTextures`. -/
structure State where
  m_textureIDs : Nat → TEXTURE_INFO
  m_loadedTextures : Nat
  m_objectMaterials : List OBJECT_MATERIAL

/-- What `stbi_load` hands back for a file it could decode. -/
structure StbImage where
  width : Int
  height : Int
  colorChannels : Int

/-- The value an `int` takes when a `GLuint` is assigned to it: the number
itself below 2^31, and the number minus 2^32 from 2^31 on (so 4294967295
becomes -1). -/
def GLuintToInt (v : Nat) : Int :=
  if v % 4294967296 < 2147483648 then ((v % 4294967296 : Nat) : Int)
  else ((v % 4294967296 : Nat) : Int) - 4294967296

/-- The function `SceneManager::CreateGLTexture`.  `image` is the result of `stbi_load` on
the file (`none` for a null pointer) and `textureID` the name written by
`glGenTextures` into the `GLuint` local, stored modulo 2^32.  Returns the
boolean result and the state after the call. -/
def CreateGLTexture (image : Option StbImage) (textureID : Nat) (tag : String)
    (s : State) : Bool × State :=
  match image with
  | some img =>
    let registered : State :=
      { s with
        m_textureIDs := Function.update s.m_textureIDs s.m_loadedTextures
          { tag := tag, ID := textureID % 4294967296 }
        m_loadedTextures := s.m_loadedTextures + 1 }
    if img.colorChannels = 3 then (true, registered)
    else if img.colorChannels = 4 then (true, registered)
    else (false, s)
  | none => (false, s)

/-- Local variables of the `while` loops of `FindTextureID` and
`FindTextureSlot`.  `result` is `textureID` resp. `textureSlot`.  `examined`
is a ghost field: the indices whose tag the loop body compared, in order. -/
structure FindLoop where
  result : Int
  index : Nat
  bFound : Bool
  examined : List Nat
deriving DecidableEq

/-- The `while` loop of `FindTextureID`.  The stored texture name, a `GLuint`,
is assigned to the `int` local `textureID`. -/
def FindTextureID.loop (s : State) (tag : String) (st : FindLoop) : FindLoop :=
  if st.index < s.m_loadedTextures ∧ st.bFound = false then
    if (s.m_textureIDs st.index).tag = tag then
      FindTextureID.loop s tag
        { result := GLuintToInt (s.m_textureIDs st.index).ID
          index := st.index
          bFound := true
          examined := st.examined ++ [st.index] }
    else
      FindTextureID.loop s tag
        { result := st.result
          index := st.index + 1
          bFound := st.bFound
          examined := st.examined ++ [st.index] }
  else st
termination_by (s.m_loadedTextures - st.index) + (if st.bFound = true then 0 else 1)
decreasing_by
  · simp_wf
    rename_i h _
    simp [h.2]
  · simp_wf
    rename_i h _
    have := h.1
    omega

/-- Run of `FindTextureID` from its initial locals to the end of the loop. -/
def FindTextureID.run (s : State) (tag : String) : FindLoop :=
  FindTextureID.loop s tag { result := -1, index := 0, bFound := false, examined := [] }

/-- The function `SceneManager::FindTextureID`. -/
def FindTextureID (s : State) (tag : String) : Int :=
  (FindTextureID.run s tag).result

/-- The `while` loop of `FindTextureSlot`. -/
def FindTextureSlot.loop (s : State) (tag : String) (st : FindLoop) : FindLoop :=
  if st.index < s.m_loadedTextures ∧ st.bFound = false then
    if (s.m_textureIDs st.index).tag = tag then
      FindTextureSlot.loop s tag
        { result := (st.index : Int)
          index := st.index
          bFound := true
          examined := st.examined ++ [st.index] }
    else
      FindTextureSlot.loop s tag
        { result := st.result
          index := st.index + 1
          bFound := st.bFound
          examined := st.examined ++ [st.index] }
  else st
termination_by (s.m_loadedTextures - st.index) + (if st.bFound = true then 0 else 1)
decreasing_by
  · simp_wf
    rename_i h _
    simp [h.2]
  · simp_wf
    rename_i h _
    have := h.1
    omega

/-- Run of `FindTextureSlot` from its initial locals to the end of the loop. -/
def FindTextureSlot.run (s : State) (tag : String) : FindLoop :=
  FindTextureSlot.loop s tag { result := -1, index := 0, bFound := false, examined := [] }

/-- The function `SceneManager::FindTextureSlot`. -/
def FindTextureSlot (s : State) (tag : String) : Int :=
  (FindTextureSlot.run s tag).result

/-- Local variables of the `while` loop of `FindMaterial`, together with the
caller's `material` that the loop writes into. -/
structure MaterialLoop where
  material : OBJECT_MATERIAL
  index : Nat
  bFound : Bool
deriving DecidableEq

/-- The `while` loop of `FindMaterial`.  On a match the five value fields of
the table entry are copied into `material`; its tag is not assigned. -/
def FindMaterial.loop (s : State) (tag : String) (st : MaterialLoop) : MaterialLoop :=
  if h : st.index < s.m_objectMaterials.length ∧ st.bFound = false then
    have hi : st.index < s.m_objectMaterials.length := h.1
    if s.m_objectMaterials[st.index].tag = tag then
      FindMaterial.loop s tag
        { material :=
            { ambientStrength := s.m_objectMaterials[st.index].ambientStrength
              ambientColor := s.m_objectMaterials[st.index].ambientColor
              diffuseColor := s.m_objectMaterials[st.index].diffuseColor
              specularColor := s.m_objectMaterials[st.index].specularColor
              shininess := s.m_objectMaterials[st.index].shininess
              tag := st.material.tag }
          index := st.index
          bFound := true }
    else
      FindMaterial.loop s tag
        { material := st.material
          index := st.index + 1
          bFound := st.bFound }
  else st
termination_by (s.m_objectMaterials.length - st.index) + (if st.bFound = true then 0 else 1)
decreasing_by
  · simp_wf
    simp [h.2]
  · simp_wf
    omega

/-- The function `SceneManager::FindMaterial`.  The reference parameter `material` is
passed in and handed back beside the boolean result. -/
def FindMaterial (s : State) (tag : String) (material : OBJECT_MATERIAL) :
    Bool × OBJECT_MATERIAL :=
  if s.m_objectMaterials.length = 0 then
    (false, material)
  else
    (true, (FindMaterial.loop s tag { material := material, index := 0, bFound := false }).material)

/-- The tag is carried by no registered entry. -/
def Unregistered (s : State) (tag : String) : Prop :=
  ∀ j, j < s.m_loadedTextures → (s.m_textureIDs j).tag ≠ tag

/-- Index `i` is the first registered entry carrying the tag. -/
def FirstAt (s : State) (tag : String) (i : Nat) : Prop :=
  i < s.m_loadedTextures ∧ (s.m_textureIDs i).tag = tag ∧
    ∀ j, j < i → (s.m_textureIDs j).tag ≠ tag

/-- An empty registry (the array content is immaterial). -/
def emptyRegistry : State :=
  { m_textureIDs := fun _ => { tag := "", ID := 0 }
    m_loadedTextures := 0
    m_objectMaterials := [] }

/-- A decoded 3-channel image. -/
def rgbImage : StbImage := { width := 2, height := 2, colorChannels := 3 }

/-- The registry after one successful load into the empty registry: it holds
the single entry ("floorTexture", 1). -/
def floorRegistry : State :=
  (CreateGLTexture (some rgbImage) 1 "floorTexture" emptyRegistry).2

/-- The registry after one successful load into the empty registry for which
`glGenTextures` wrote the name 4294967295. -/
def highNameRegistry : State :=
  (CreateGLTexture (some rgbImage) 4294967295 "floorTexture" emptyRegistry).2

/-- The material `PrepareScene` appends: tag "default", ambient strength 0.2,
shininess 32. -/
def droneMaterial : OBJECT_MATERIAL :=
  { ambientStrength := 1 / 5
    ambientColor := ⟨1 / 5, 1 / 5, 1 / 5⟩
    diffuseColor := ⟨1 / 2, 1 / 2, 1 / 2⟩
    specularColor := ⟨7 / 10, 7 / 10, 7 / 10⟩
    shininess := 32
    tag := "default" }

/-- A scene whose material table holds exactly the "default" material. -/
def defaultMaterialScene : State :=
  { emptyRegistry with m_objectMaterials := [droneMaterial] }

/-- A caller-side material with every field zero and an empty tag. -/
def blankMaterial : OBJECT_MATERIAL :=
  { ambientStrength := 0
    ambientColor := ⟨0, 0, 0⟩
    diffuseColor := ⟨0, 0, 0⟩
    specularColor := ⟨0, 0, 0⟩
    shininess := 0
    tag := "" }

/-- A decoded 1-channel image. -/
def greyImage : StbImage := { width := 2, height := 2, colorChannels := 1 }

end SceneManager

namespace ViewManager

/-! ## Camera and projection controller (`ViewManager.cpp`) -/

/-- Result of `glfwGetKey`: the last reported state of a key. -/
inductive KeyState where
  | GLFW_RELEASE
  | GLFW_PRESS
deriving DecidableEq

/-- What `glfwGetKey(m_pWindow, key)` returns, during one call of
`ProcessKeyboardEvents`, for each key the function queries. -/
structure Keys where
  GLFW_KEY_ESCAPE : KeyState
  GLFW_KEY_W : KeyState
  GLFW_KEY_S : KeyState
  GLFW_KEY_A : KeyState
  GLFW_KEY_D : KeyState
  GLFW_KEY_E : KeyState
  GLFW_KEY_Q : KeyState
  GLFW_KEY_R : KeyState
  GLFW_KEY_P : KeyState
  GLFW_KEY_O : KeyState
deriving DecidableEq

/-- Directions accepted by `Camera::ProcessKeyboard`. -/
inductive Camera_Movement where
  | FORWARD
  | BACKWARD
  | LEFT
  | RIGHT
  | UP
  | DOWN
deriving DecidableEq

/-- Modelled from the spec: the object behind `g_pCamera`.  Class `Camera` is
declared in `camera.h`, which is not among the sources; the fields are those
of the specification's CameraState (position, yaw, pitch, zoom and the derived
front, up and right vectors). -/
structure Camera where
  Position : glm.vec3
  Yaw : ℚ
  Pitch : ℚ
  Zoom : ℚ
  Front : glm.vec3
  Up : glm.vec3
  Right : glm.vec3
deriving DecidableEq

/-- The operations `ViewManager.cpp` relies on whose bodies are outside it;
they are parameters of the model.  The first four are the member functions of
`Camera` it calls (bodies in `camera.h`); `vectors yaw pitch` is the triple
(front, up, right) derived from the two angles.  `toFloat` is
`static_cast<float>` on a `double`: the float nearest to the argument. -/
structure CameraLib where
  ProcessKeyboard : Camera_Movement → ℚ → Camera → Camera
  ProcessMouseMovement : ℚ → ℚ → Camera → Camera
  ProcessMouseScroll : ℚ → Camera → Camera
  vectors : ℚ → ℚ → glm.vec3 × glm.vec3 × glm.vec3
  toFloat : ℚ → ℚ

/-- Modelled from the spec: `Camera::updateCameraVectors` (body in `camera.h`, not among the
sources) recomputes the derived vectors from yaw and pitch and touches nothing else. -/
def updateCameraVectors (lib : CameraLib) (c : Camera) : Camera :=
  { c with
    Front := (lib.vectors c.Yaw c.Pitch).1
    Up := (lib.vectors c.Yaw c.Pitch).2.1
    Right := (lib.vectors c.Yaw c.Pitch).2.2 }

/-- The file-scope variables of `ViewManager.cpp`, the two function statics of
`ProcessKeyboardEvents`, the camera object `g_pCamera` points to (non-null
from the constructor to the destructor) and the close flag of the window.
`mouseLookCalls` is a ghost field: the arguments of every call of
`g_pCamera->ProcessMouseMovement`, in order. -/
structure State where
  camera : Camera
  gLastX : ℚ
  gLastY : ℚ
  gFirstMouse : Bool
  gDeltaTime : ℚ
  gLastFrame : ℚ
  bOrthographicProjection : Bool
  gOrthoZoom : ℚ
  bProjectionChanged : Bool
  pKeyPressed : Bool
  oKeyPressed : Bool
  windowShouldClose : Bool
  mouseLookCalls : List (ℚ × ℚ)
deriving DecidableEq

/-- Window width. -/
def WINDOW_WIDTH : Int := 1000

/-- Window height. -/
def WINDOW_HEIGHT : Int := 800

/-- The state after the constructor `ViewManager::ViewManager`, with the
file-scope variables at their initialisers.  `cam0` is the freshly
constructed `Camera()`. -/
def init (lib : CameraLib) (cam0 : Camera) : State :=
  { camera := updateCameraVectors lib
      { cam0 with Position := ⟨12, 8, 10⟩, Yaw := -135, Pitch := -25, Zoom := 25 }
    gLastX := (WINDOW_WIDTH : ℚ) / 2
    gLastY := (WINDOW_HEIGHT : ℚ) / 2
    gFirstMouse := true
    gDeltaTime := 0
    gLastFrame := 0
    bOrthographicProjection := false
    gOrthoZoom := 10
    bProjectionChanged := false
    pKeyPressed := false
    oKeyPressed := false
    windowShouldClose := false
    mouseLookCalls := [] }

/-- The callback `ViewManager::Mouse_Position_Callback`.  The arguments are
the `double` cursor coordinates GLFW reports; `xpos` and `ypos` are their
conversions to `float`. -/
def Mouse_Position_Callback (lib : CameraLib) (xMousePos yMousePos : ℚ) (s : State) : State :=
  if s.bOrthographicProjection = true then
    s
  else
    let xpos := lib.toFloat xMousePos
    let ypos := lib.toFloat yMousePos
    let s1 : State :=
      if s.gFirstMouse = true then
        { s with gLastX := xpos, gLastY := ypos, gFirstMouse := false }
      else s
    let xoffset := xpos - s1.gLastX
    let yoffset := s1.gLastY - ypos
    { s1 with
      gLastX := xpos
      gLastY := ypos
      camera := lib.ProcessMouseMovement xoffset yoffset s1.camera
      mouseLookCalls := s1.mouseLookCalls ++ [(xoffset, yoffset)] }

/-- The statement `if (glfwGetKey(m_pWindow, GLFW_KEY_ESCAPE) == GLFW_PRESS)
glfwSetWindowShouldClose(m_pWindow, true);` of `ProcessKeyboardEvents`. -/
def ProcessKeyboardEvents.escape (k : Keys) (s : State) : State :=
  if k.GLFW_KEY_ESCAPE = KeyState.GLFW_PRESS then { s with windowShouldClose := true } else s

/-- One movement statement of `ProcessKeyboardEvents`:
`if (glfwGetKey(m_pWindow, key) == GLFW_PRESS) g_pCamera->ProcessKeyboard(direction, gDeltaTime);`
where `key` is the reported state of the key. -/
def ProcessKeyboardEvents.move (lib : CameraLib) (key : KeyState) (direction : Camera_Movement)
    (s : State) : State :=
  if key = KeyState.GLFW_PRESS then
    { s with camera := lib.ProcessKeyboard direction s.gDeltaTime s.camera }
  else s

/-- Function `ProcessKeyboardEvents`, first part: the ESC test and the six
movement statements, in program order (W, S, A, D, E, Q). -/
def ProcessKeyboardEvents.movement (lib : CameraLib) (k : Keys) (s : State) : State :=
  s |> ProcessKeyboardEvents.escape k
    |> ProcessKeyboardEvents.move lib k.GLFW_KEY_W Camera_Movement.FORWARD
    |> ProcessKeyboardEvents.move lib k.GLFW_KEY_S Camera_Movement.BACKWARD
    |> ProcessKeyboardEvents.move lib k.GLFW_KEY_A Camera_Movement.LEFT
    |> ProcessKeyboardEvents.move lib k.GLFW_KEY_D Camera_Movement.RIGHT
    |> ProcessKeyboardEvents.move lib k.GLFW_KEY_E Camera_Movement.UP
    |> ProcessKeyboardEvents.move lib k.GLFW_KEY_Q Camera_Movement.DOWN

/-- Function `ProcessKeyboardEvents`, second part: the reset on R. -/
def ProcessKeyboardEvents.reset (lib : CameraLib) (k : Keys) (s : State) : State :=
  if k.GLFW_KEY_R = KeyState.GLFW_PRESS then
    { s with
      camera := updateCameraVectors lib
        { s.camera with Position := ⟨0, 4, 5⟩, Yaw := -90, Pitch := -30, Zoom := 45 } }
  else s

/-- Function `ProcessKeyboardEvents`, third part: the two `if` statements on P. -/
def ProcessKeyboardEvents.toggleP (k : Keys) (s : State) : State :=
  let s : State :=
    if k.GLFW_KEY_P = KeyState.GLFW_PRESS ∧ s.pKeyPressed = false then
      { s with bOrthographicProjection := false, bProjectionChanged := true, pKeyPressed := true }
    else s
  if k.GLFW_KEY_P = KeyState.GLFW_RELEASE then { s with pKeyPressed := false } else s

/-- Function `ProcessKeyboardEvents`, fourth part: the two `if` statements on O. -/
def ProcessKeyboardEvents.toggleO (lib : CameraLib) (k : Keys) (s : State) : State :=
  let s : State :=
    if k.GLFW_KEY_O = KeyState.GLFW_PRESS ∧ s.oKeyPressed = false then
      { s with
        bOrthographicProjection := true
        bProjectionChanged := true
        camera := updateCameraVectors lib
          { s.camera with Position := ⟨0, 4, 10⟩, Yaw := -90, Pitch := 0 }
        oKeyPressed := true }
    else s
  if k.GLFW_KEY_O = KeyState.GLFW_RELEASE then { s with oKeyPressed := false } else s

/-- The state in which `ProcessKeyboardEvents` reaches its statements on P. -/
def ProcessKeyboardEvents.beforeToggleP (lib : CameraLib) (k : Keys) (s : State) : State :=
  ProcessKeyboardEvents.reset lib k (ProcessKeyboardEvents.movement lib k s)

/-- The state in which `ProcessKeyboardEvents` reaches its statements on O. -/
def ProcessKeyboardEvents.beforeToggleO (lib : CameraLib) (k : Keys) (s : State) : State :=
  ProcessKeyboardEvents.toggleP k (ProcessKeyboardEvents.beforeToggleP lib k s)

/-- The function `ViewManager::ProcessKeyboardEvents`: the four parts in program order. -/
def ProcessKeyboardEvents (lib : CameraLib) (k : Keys) (s : State) : State :=
  ProcessKeyboardEvents.toggleO lib k (ProcessKeyboardEvents.beforeToggleO lib k s)

/-- The function `ViewManager::ProcessMouseScroll`. -/
def ProcessMouseScroll (lib : CameraLib) (yoffset : ℚ) (s : State) : State :=
  if s.bOrthographicProjection = true then
    let z : ℚ := s.gOrthoZoom - yoffset * (1 / 2)
    let z : ℚ := if z < 1 then 1 else z
    let z : ℚ := if z > 50 then 50 else z
    { s with gOrthoZoom := z }
  else
    { s with camera := lib.ProcessMouseScroll yoffset s.camera }

/-- The per-frame timing at the head of `PrepareSceneView`. -/
def PrepareSceneView.timing (currentFrame : ℚ) (s : State) : State :=
  { s with gDeltaTime := currentFrame - s.gLastFrame, gLastFrame := currentFrame }

/-- The function `ViewManager::PrepareSceneView`, as far as it changes this state: the
frame timing, the keyboard processing and the reset of `bProjectionChanged`.
`currentFrame` is the local variable of that name: the value of
`glfwGetTime()` after its conversion to `float`.  The view and projection
matrices and the uniform writes read this state and do not change it. -/
def PrepareSceneView (lib : CameraLib) (currentFrame : ℚ) (k : Keys) (s : State) : State :=
  let s : State := PrepareSceneView.timing currentFrame s
  let s : State := ProcessKeyboardEvents lib k s
  { s with bProjectionChanged := false }

/-- The entry points through which the window system drives the controller:
a frame (a call of `PrepareSceneView`), the cursor callback with the `double`
coordinates, and the scroll callback with the `double` vertical offset. -/
inductive Event where
  | frame (currentFrame : ℚ) (k : Keys)
  | cursor (xMousePos yMousePos : ℚ)
  | scroll (yoffset : ℚ)

/-- Effect of one event.  The scroll callback is the lambda registered with
`glfwSetScrollCallback`: `ProcessMouseScroll(static_cast<float>(yoffset))`. -/
def step (lib : CameraLib) (s : State) : Event → State
  | Event.frame t k => PrepareSceneView lib t k s
  | Event.cursor x y => Mouse_Position_Callback lib x y s
  | Event.scroll d => ProcessMouseScroll lib (lib.toFloat d) s

/-- Effect of a sequence of events, oldest first. -/
def run (lib : CameraLib) (s : State) (evs : List Event) : State :=
  evs.foldl (step lib) s

/-- A state is reachable when some sequence of events leads to it from the
state the constructor leaves. -/
def Reachable (lib : CameraLib) (cam0 : Camera) (s : State) : Prop :=
  ∃ evs : List Event, run lib (init lib cam0) evs = s

/-- Whether an event is a frame (a call of `PrepareSceneView`). -/
def Event.isFrame : Event → Bool
  | Event.frame _ _ => true
  | Event.cursor _ _ => false
  | Event.scroll _ => false

/-- A camera library for concrete evaluation: movement keys do nothing, mouse
look adds the offsets to yaw and pitch, scrolling lowers the zoom, and the
derived vectors are constant.  The conversion to `float` sends 16777217 =
2^24 + 1, which lies halfway between the neighbouring floats 16777216 and
16777218, to 16777216 (ties go to the even significand), and keeps the other
numbers evaluated with it below (0, 3, 4, 5, 10, 20, 30 and 16777216), which
are floats. -/
def sampleLib : CameraLib :=
  { ProcessKeyboard := fun _ _ c => c
    ProcessMouseMovement := fun xoffset yoffset c =>
      { c with Yaw := c.Yaw + xoffset, Pitch := c.Pitch + yoffset }
    ProcessMouseScroll := fun yoffset c => { c with Zoom := c.Zoom - yoffset }
    vectors := fun _ _ => (⟨0, 0, -1⟩, ⟨0, 1, 0⟩, ⟨1, 0, 0⟩)
    toFloat := fun x => if x = 16777217 then 16777216 else x }

/-- A camera for concrete evaluation. -/
def sampleCamera : Camera :=
  { Position := ⟨0, 0, 0⟩, Yaw := 0, Pitch := 0, Zoom := 0
    Front := ⟨0, 0, -1⟩, Up := ⟨0, 1, 0⟩, Right := ⟨1, 0, 0⟩ }

/-- The constructed controller over the sample library and camera. -/
def sampleInit : State := init sampleLib sampleCamera

/-- Every key released. -/
def noKeys : Keys :=
  { GLFW_KEY_ESCAPE := KeyState.GLFW_RELEASE
    GLFW_KEY_W := KeyState.GLFW_RELEASE
    GLFW_KEY_S := KeyState.GLFW_RELEASE
    GLFW_KEY_A := KeyState.GLFW_RELEASE
    GLFW_KEY_D := KeyState.GLFW_RELEASE
    GLFW_KEY_E := KeyState.GLFW_RELEASE
    GLFW_KEY_Q := KeyState.GLFW_RELEASE
    GLFW_KEY_R := KeyState.GLFW_RELEASE
    GLFW_KEY_P := KeyState.GLFW_RELEASE
    GLFW_KEY_O := KeyState.GLFW_RELEASE }

/-- Only O pressed. -/
def onlyO : Keys := { noKeys with GLFW_KEY_O := KeyState.GLFW_PRESS }

/-- Only P pressed. -/
def onlyP : Keys := { noKeys with GLFW_KEY_P := KeyState.GLFW_PRESS }

/-- The sample controller after a first frame in which only O is pressed: it
is in Orthographic mode with `gOrthoZoom` still 10. -/
def sampleOrtho : State := PrepareSceneView sampleLib 0 onlyO sampleInit

/-- The sample controller after a cursor event at (10, 10) handled in
Perspective mode, followed by a frame in which only O is pressed: it is in
Orthographic mode and `gFirstMouse` is already cleared. -/
def sampleOrthoAfterLook : State :=
  run sampleLib sampleInit [Event.cursor 10 10, Event.frame 0 onlyO]

/-- The sample controller after a cursor event at (16777216, 0) handled in
Perspective mode, followed by a frame in which only O is pressed: it is in
Orthographic mode, `gFirstMouse` is cleared and the recorded cursor position
is (16777216, 0). -/
def sampleOrthoAfterFarLook : State :=
  run sampleLib sampleInit [Event.cursor 16777216 0, Event.frame 0 onlyO]

end ViewManager

namespace glm

/-! ## Transform composition (`glm` as used by `SetTransformations`) -/

/-- Three-component vector over a scalar type (`glm::vec<3, T>`). -/
structure tvec3 (T : Type) where
  x : T
  y : T
  z : T
deriving DecidableEq

/-- Four by four matrix over a scalar type (`glm::mat<4, 4, T>`), indexed by
row and column of the mathematical matrix. -/
abbrev mat4 (T : Type) := Matrix (Fin 4) (Fin 4) T

/-- The elementary functions and the constant pi that the library evaluates on
its scalar type; they are parameters of the model. -/
structure Trig (T : Type) where
  cos : T → T
  sin : T → T
  inversesqrt : T → T
  pi : T

/-- The function `glm::radians`: degrees times pi / 180. -/
def radians {T : Type} [Field T] (trig : Trig T) (degrees : T) : T :=
  degrees * (trig.pi / 180)

/-- The function `glm::dot` on three-component vectors. -/
def dot {T : Type} [Field T] (a b : tvec3 T) : T :=
  a.x * b.x + a.y * b.y + a.z * b.z

/-- The function `glm::normalize`: the vector times the inverse square root of
its squared length. -/
def normalize {T : Type} [Field T] (trig : Trig T) (v : tvec3 T) : tvec3 T :=
  { x := v.x * trig.inversesqrt (dot v v)
    y := v.y * trig.inversesqrt (dot v v)
    z := v.z * trig.inversesqrt (dot v v) }

/-- The function `glm::scale(v)`: the identity with its first three columns
multiplied by the components of `v`. -/
def scale {T : Type} [Field T] (v : tvec3 T) : mat4 T :=
  !![v.x, 0, 0, 0;
     0, v.y, 0, 0;
     0, 0, v.z, 0;
     0, 0, 0, 1]

/-- The function `glm::translate(v)`: the identity with `v` in the fourth column. -/
def translate {T : Type} [Field T] (v : tvec3 T) : mat4 T :=
  !![1, 0, 0, v.x;
     0, 1, 0, v.y;
     0, 0, 1, v.z;
     0, 0, 0, 1]

/-- The function `glm::rotate(angle, v)`, angle in radians: with `c`, `s` the
cosine and sine of the angle, `axis` the normalized `v` and
`temp = (1 - c) * axis`, the entry in row `r` and column `k` of the upper
left block is the library's `Rotate[k][r]`. -/
def rotate {T : Type} [Field T] (trig : Trig T) (angle : T) (v : tvec3 T) : mat4 T :=
  let c := trig.cos angle
  let s := trig.sin angle
  let axis := normalize trig v
  let temp : tvec3 T := { x := (1 - c) * axis.x, y := (1 - c) * axis.y, z := (1 - c) * axis.z }
  !![c + temp.x * axis.x, temp.y * axis.x - s * axis.z, temp.z * axis.x + s * axis.y, 0;
     temp.x * axis.y + s * axis.z, c + temp.y * axis.y, temp.z * axis.y - s * axis.x, 0;
     temp.x * axis.z - s * axis.y, temp.y * axis.z + s * axis.x, c + temp.z * axis.z, 0;
     0, 0, 0, 1]

/-- The image of the point `p` under the matrix `m`: the first three
components of `m * vec4(p, 1)`. -/
def transformPoint {T : Type} [Field T] (m : mat4 T) (p : tvec3 T) : tvec3 T :=
  { x := Matrix.mulVec m ![p.x, p.y, p.z, 1] 0
    y := Matrix.mulVec m ![p.x, p.y, p.z, 1] 1
    z := Matrix.mulVec m ![p.x, p.y, p.z, 1] 2 }

/-- Componentwise scaling of a point. -/
def scalePoint {T : Type} [Field T] (k p : tvec3 T) : tvec3 T :=
  { x := k.x * p.x, y := k.y * p.y, z := k.z * p.z }

/-- Rotation of a point about the world X axis by an angle in degrees
(counter-clockwise seen from the positive end of the axis). -/
def rotateAboutX {T : Type} [Field T] (trig : Trig T) (degrees : T) (p : tvec3 T) : tvec3 T :=
  { x := p.x
    y := trig.cos (radians trig degrees) * p.y - trig.sin (radians trig degrees) * p.z
    z := trig.sin (radians trig degrees) * p.y + trig.cos (radians trig degrees) * p.z }

/-- Rotation of a point about the world Y axis by an angle in degrees. -/
def rotateAboutY {T : Type} [Field T] (trig : Trig T) (degrees : T) (p : tvec3 T) : tvec3 T :=
  { x := trig.cos (radians trig degrees) * p.x + trig.sin (radians trig degrees) * p.z
    y := p.y
    z := trig.cos (radians trig degrees) * p.z - trig.sin (radians trig degrees) * p.x }

/-- Rotation of a point about the world Z axis by an angle in degrees. -/
def rotateAboutZ {T : Type} [Field T] (trig : Trig T) (degrees : T) (p : tvec3 T) : tvec3 T :=
  { x := trig.cos (radians trig degrees) * p.x - trig.sin (radians trig degrees) * p.y
    y := trig.sin (radians trig degrees) * p.x + trig.cos (radians trig degrees) * p.y
    z := p.z }

/-- Translation of a point. -/
def translatePoint {T : Type} [Field T] (t p : tvec3 T) : tvec3 T :=
  { x := p.x + t.x, y := p.y + t.y, z := p.z + t.z }

end glm

namespace SceneManager

/-- The matrix `modelView` that `SetTransformations` composes:
`translation * rotationX * rotationY * rotationZ * scale`. -/
def SetTransformations.modelView {T : Type} [Field T] (trig : glm.Trig T)
    (scaleXYZ : glm.tvec3 T) (XrotationDegrees YrotationDegrees ZrotationDegrees : T)
    (positionXYZ : glm.tvec3 T) : glm.mat4 T :=
  let scale := glm.scale scaleXYZ
  let rotationX := glm.rotate trig (glm.radians trig XrotationDegrees) ⟨1, 0, 0⟩
  let rotationY := glm.rotate trig (glm.radians trig YrotationDegrees) ⟨0, 1, 0⟩
  let rotationZ := glm.rotate trig (glm.radians trig ZrotationDegrees) ⟨0, 0, 1⟩
  let translation := glm.translate positionXYZ
  translation * rotationX * rotationY * rotationZ * scale

/-- The order of operations on a point as the specification words it: scale,
then rotate about X, then about Y, then about Z, then translate. -/
def SetTransformations.pointOrderXYZ {T : Type} [Field T] (trig : glm.Trig T)
    (scaleXYZ : glm.tvec3 T) (XrotationDegrees YrotationDegrees ZrotationDegrees : T)
    (positionXYZ : glm.tvec3 T) (p : glm.tvec3 T) : glm.tvec3 T :=
  glm.translatePoint positionXYZ
    (glm.rotateAboutZ trig ZrotationDegrees
      (glm.rotateAboutY trig YrotationDegrees
        (glm.rotateAboutX trig XrotationDegrees
          (glm.scalePoint scaleXYZ p))))

/-- The order of operations on a point that the matrix product performs:
scale, then rotate about Z, then about Y, then about X, then translate. -/
def SetTransformations.pointOrderZYX {T : Type} [Field T] (trig : glm.Trig T)
    (scaleXYZ : glm.tvec3 T) (XrotationDegrees YrotationDegrees ZrotationDegrees : T)
    (positionXYZ : glm.tvec3 T) (p : glm.tvec3 T) : glm.tvec3 T :=
  glm.translatePoint positionXYZ
    (glm.rotateAboutX trig XrotationDegrees
      (glm.rotateAboutY trig YrotationDegrees
        (glm.rotateAboutZ trig ZrotationDegrees
          (glm.scalePoint scaleXYZ p))))

end SceneManager

namespace OpenGL

/-! ## Uniform writes and draw calls -/

/-- The three meshes of `ShapeMeshes` that the scene draws. -/
inductive Mesh where
  | plane
  | box
  | cylinder
deriving DecidableEq

/-- A value written to a shader uniform, over the scalar type `T`. -/
inductive Value (T : Type) where
  | int (v : Int)
  | bool (v : Bool)
  | float (v : T)
  | vec2 (x y : T)
  | vec3 (x y z : T)
  | vec4 (x y z w : T)
  | mat4 (m : glm.mat4 T)

/-- One call into the shader manager, OpenGL or the mesh library, as it
appears in the order of execution. -/
inductive Cmd (T : Type) where
  | uniform (name : String) (value : Value T)
  | glActiveTexture (unit : Nat)
  | glBindTexture (texture : Nat)
  | draw (mesh : Mesh)

/-- How a boolean uniform reads a written value: an int is true when non-zero. -/
def Value.truth {T : Type} : Value T → Option Bool
  | Value.int v => some (decide (v ≠ 0))
  | Value.bool v => some v
  | _ => none

/-- The value of the uniform `name` after the commands, given its value before
them: the last value written, if any. -/
def uniformAfter {T : Type} (name : String) : Option (Value T) → List (Cmd T) → Option (Value T)
  | cur, [] => cur
  | cur, Cmd.uniform n v :: rest => uniformAfter name (if n = name then some v else cur) rest
  | cur, Cmd.glActiveTexture _ :: rest => uniformAfter name cur rest
  | cur, Cmd.glBindTexture _ :: rest => uniformAfter name cur rest
  | cur, Cmd.draw _ :: rest => uniformAfter name cur rest

/-- For every draw call among the commands, in order, the mesh drawn and the
value the uniform `name` has when the call is issued. -/
def atDraws {T : Type} (name : String) :
    Option (Value T) → List (Cmd T) → List (Mesh × Option (Value T))
  | _, [] => []
  | cur, Cmd.uniform n v :: rest => atDraws name (if n = name then some v else cur) rest
  | cur, Cmd.glActiveTexture _ :: rest => atDraws name cur rest
  | cur, Cmd.glBindTexture _ :: rest => atDraws name cur rest
  | cur, Cmd.draw mesh :: rest => (mesh, cur) :: atDraws name cur rest

/-- A write of a boolean uniform, or a draw call. -/
inductive FlagEvent where
  | write (v : Option Bool)
  | draw (mesh : Mesh)
deriving DecidableEq

/-- The writes of the boolean uniform `name` and the draw calls among the
commands, in order; every other command is dropped. -/
def flagEvents {T : Type} (name : String) : List (Cmd T) → List FlagEvent
  | [] => []
  | Cmd.uniform n v :: rest =>
    if n = name then FlagEvent.write v.truth :: flagEvents name rest else flagEvents name rest
  | Cmd.glActiveTexture _ :: rest => flagEvents name rest
  | Cmd.glBindTexture _ :: rest => flagEvents name rest
  | Cmd.draw mesh :: rest => FlagEvent.draw mesh :: flagEvents name rest

/-- For every draw call among the commands, in order, the mesh drawn and the
truth value the boolean uniform `name` has when the call is issued (`none`
when the uniform was never written before the call). -/
def flagAtDraws {T : Type} (name : String) (cmds : List (Cmd T)) : List (Mesh × Option Bool) :=
  (atDraws name none cmds).map (fun d => (d.1, d.2.bind Value.truth))

/-- The names of the uniforms written by the commands, in order. -/
def uniformNames {T : Type} : List (Cmd T) → List String
  | [] => []
  | Cmd.uniform n _ :: rest => n :: uniformNames rest
  | Cmd.glActiveTexture _ :: rest => uniformNames rest
  | Cmd.glBindTexture _ :: rest => uniformNames rest
  | Cmd.draw _ :: rest => uniformNames rest

/-- Conversion of an `int` argument to the `GLuint` parameter of `glBindTexture`. -/
def toGLuint (v : Int) : Nat := (v % 4294967296).toNat

end OpenGL

namespace ShaderManager

/-! Modelled from the spec: the setters of `ShaderManager` (its sources are not
among the files).  Each call is a direct, immediate write of the named uniform. -/

/-- Modelled from the spec: `setIntValue(name, value)` writes an int uniform. -/
def setIntValue {T : Type} (name : String) (value : Int) : OpenGL.Cmd T :=
  OpenGL.Cmd.uniform name (OpenGL.Value.int value)

/-- Modelled from the spec: `setBoolValue(name, value)` writes a bool uniform. -/
def setBoolValue {T : Type} (name : String) (value : Bool) : OpenGL.Cmd T :=
  OpenGL.Cmd.uniform name (OpenGL.Value.bool value)

/-- Modelled from the spec: `setFloatValue(name, value)` writes a float uniform. -/
def setFloatValue {T : Type} (name : String) (value : T) : OpenGL.Cmd T :=
  OpenGL.Cmd.uniform name (OpenGL.Value.float value)

/-- Modelled from the spec: `setVec2Value(name, value)` writes a vec2 uniform. -/
def setVec2Value {T : Type} (name : String) (x y : T) : OpenGL.Cmd T :=
  OpenGL.Cmd.uniform name (OpenGL.Value.vec2 x y)

/-- Modelled from the spec: `setVec3Value(name, value)` writes a vec3 uniform. -/
def setVec3Value {T : Type} (name : String) (x y z : T) : OpenGL.Cmd T :=
  OpenGL.Cmd.uniform name (OpenGL.Value.vec3 x y z)

/-- Modelled from the spec: `setVec4Value(name, value)` writes a vec4 uniform. -/
def setVec4Value {T : Type} (name : String) (x y z w : T) : OpenGL.Cmd T :=
  OpenGL.Cmd.uniform name (OpenGL.Value.vec4 x y z w)

/-- Modelled from the spec: `setMat4Value(name, value)` writes a mat4 uniform. -/
def setMat4Value {T : Type} (name : String) (value : glm.mat4 T) : OpenGL.Cmd T :=
  OpenGL.Cmd.uniform name (OpenGL.Value.mat4 value)

end ShaderManager

namespace SceneManager

/-! ## Per-draw uniform upload, scene preparation and rendering -/

/-- The function `SceneManager::SetTransformations`: the commands it issues.
`shader` tells whether `m_pShaderManager` is non-null. -/
def SetTransformations {T : Type} [Field T] (trig : glm.Trig T) (shader : Bool)
    (scaleXYZ : glm.tvec3 T) (XrotationDegrees YrotationDegrees ZrotationDegrees : T)
    (positionXYZ : glm.tvec3 T) : List (OpenGL.Cmd T) :=
  if shader = true then
    [ShaderManager.setMat4Value "model"
      (SetTransformations.modelView trig scaleXYZ XrotationDegrees YrotationDegrees
        ZrotationDegrees positionXYZ)]
  else []

/-- The function `SceneManager::SetShaderColor`: the commands it issues.  The
`false` passed to `setIntValue` is the int 0. -/
def SetShaderColor (shader : Bool) (redColorValue greenColorValue blueColorValue alphaValue : ℚ) :
    List (OpenGL.Cmd ℚ) :=
  if shader = true then
    [ShaderManager.setIntValue "bUseTexture" 0,
     ShaderManager.setVec4Value "objectColor" redColorValue greenColorValue blueColorValue
       alphaValue]
  else []

/-- The function `SceneManager::SetTextureUVScale`: the commands it issues. -/
def SetTextureUVScale (shader : Bool) (u v : ℚ) : List (OpenGL.Cmd ℚ) :=
  if shader = true then [ShaderManager.setVec2Value "UVscale" u v] else []

/-- The function `SceneManager::SetShaderMaterial`: the commands it issues.
`material` is the content of the local `OBJECT_MATERIAL material` before
`FindMaterial` writes into it (the local has no initialiser). -/
def SetShaderMaterial (s : State) (material : OBJECT_MATERIAL) (materialTag : String) :
    List (OpenGL.Cmd ℚ) :=
  if s.m_objectMaterials.length > 0 then
    let r := FindMaterial s materialTag material
    if r.1 = true then
      [ShaderManager.setVec3Value "material.ambientColor"
         r.2.ambientColor.x r.2.ambientColor.y r.2.ambientColor.z,
       ShaderManager.setFloatValue "material.ambientStrength" r.2.ambientStrength,
       ShaderManager.setVec3Value "material.diffuseColor"
         r.2.diffuseColor.x r.2.diffuseColor.y r.2.diffuseColor.z,
       ShaderManager.setVec3Value "material.specularColor"
         r.2.specularColor.x r.2.specularColor.y r.2.specularColor.z,
       ShaderManager.setFloatValue "material.shininess" r.2.shininess]
    else []
  else []

/-- What the model needs from outside the scene manager to run `RenderScene`:
the elementary functions behind `glm`, and the content of the uninitialised
local of `SetShaderMaterial`. -/
structure RenderEnv where
  trig : glm.Trig ℚ
  material : OBJECT_MATERIAL

/-- The block "DRONE BODY" of `RenderDrone`. -/
def RenderDrone.body (env : RenderEnv) (s : State) : List (OpenGL.Cmd ℚ) :=
  [ShaderManager.setBoolValue "bUseTexture" true,
   OpenGL.Cmd.glActiveTexture 0,
   OpenGL.Cmd.glBindTexture (OpenGL.toGLuint (FindTextureID s "droneTextureBlack")),
   ShaderManager.setIntValue "objectTexture" 0]
  ++ SetTransformations env.trig true ⟨3, 1, 2⟩ 0 0 0 ⟨0, 2, 0⟩
  ++ SetShaderMaterial s env.material "default"
  ++ [ShaderManager.setIntValue "bUseLighting" 1,
      OpenGL.Cmd.draw OpenGL.Mesh.box,
      ShaderManager.setBoolValue "bUseTexture" false]

/-- The block "CAMERA BOX" of `RenderDrone`. -/
def RenderDrone.cameraBox (env : RenderEnv) (s : State) : List (OpenGL.Cmd ℚ) :=
  [ShaderManager.setBoolValue "bUseTexture" true,
   OpenGL.Cmd.glActiveTexture 0,
   OpenGL.Cmd.glBindTexture (OpenGL.toGLuint (FindTextureID s "cameraLens")),
   ShaderManager.setIntValue "objectTexture" 0]
  ++ SetTransformations env.trig true ⟨4 / 5, 3 / 5, 3 / 10⟩ 0 0 0 ⟨0, 8 / 5, 9 / 10⟩
  ++ SetTextureUVScale true 2 2
  ++ SetShaderMaterial s env.material "default"
  ++ [ShaderManager.setIntValue "bUseLighting" 1,
      OpenGL.Cmd.draw OpenGL.Mesh.box,
      ShaderManager.setBoolValue "bUseTexture" false]

/-- The block "CAMERA LENS" of `RenderDrone`. -/
def RenderDrone.cameraLens (env : RenderEnv) (s : State) : List (OpenGL.Cmd ℚ) :=
  [ShaderManager.setBoolValue "bUseTexture" false]
  ++ SetShaderColor true 0 0 0 1
  ++ SetTransformations env.trig true ⟨3 / 10, 3 / 10, 2 / 5⟩ 90 0 0 ⟨0, 3 / 2, 4 / 5⟩
  ++ SetTextureUVScale true 2 2
  ++ SetShaderMaterial s env.material "default"
  ++ [ShaderManager.setIntValue "bUseLighting" 1,
      OpenGL.Cmd.draw OpenGL.Mesh.cylinder,
      ShaderManager.setBoolValue "bUseTexture" false]

/-- One of the four arm blocks of `RenderDrone`; they differ only in the Y
rotation and the position passed to `SetTransformations`. -/
def RenderDrone.arm (env : RenderEnv) (s : State) (YrotationDegrees : ℚ)
    (positionXYZ : glm.tvec3 ℚ) : List (OpenGL.Cmd ℚ) :=
  [ShaderManager.setBoolValue "bUseTexture" false]
  ++ SetShaderColor true (1 / 5) (1 / 5) (1 / 5) 1
  ++ SetTransformations env.trig true ⟨9 / 4, 1 / 5, 1 / 2⟩ 0 YrotationDegrees 0 positionXYZ
  ++ SetTextureUVScale true 2 2
  ++ SetShaderMaterial s env.material "default"
  ++ [ShaderManager.setIntValue "bUseLighting" 1,
      OpenGL.Cmd.draw OpenGL.Mesh.box,
      ShaderManager.setBoolValue "bUseTexture" false]

/-- The function `SceneManager::RenderDrone`: the commands it issues, for a
scene manager whose `m_pShaderManager` is non-null (the function dereferences
it without a test).  The arms come in the order front left, front right, rear
left, rear right. -/
def RenderDrone (env : RenderEnv) (s : State) : List (OpenGL.Cmd ℚ) :=
  RenderDrone.body env s
  ++ RenderDrone.cameraBox env s
  ++ RenderDrone.cameraLens env s
  ++ RenderDrone.arm env s 30 ⟨-2, 47 / 20, 3 / 2⟩
  ++ RenderDrone.arm env s (-30) ⟨2, 47 / 20, 3 / 2⟩
  ++ RenderDrone.arm env s (-30) ⟨-2, 47 / 20, -3 / 2⟩
  ++ RenderDrone.arm env s 30 ⟨2, 47 / 20, -3 / 2⟩

/-- The part of `RenderScene` before the call of `RenderDrone`: the write of
`viewPosition` and the floor plane. -/
def RenderScene.floor (env : RenderEnv) (s : State) : List (OpenGL.Cmd ℚ) :=
  [ShaderManager.setVec3Value "viewPosition" 0 6 5]
  ++ SetTransformations env.trig true ⟨20, 1, 10⟩ 0 0 0 ⟨0, 11 / 10, 0⟩
  ++ [ShaderManager.setIntValue "bUseLighting" 1,
      ShaderManager.setBoolValue "bUseTexture" true,
      OpenGL.Cmd.glActiveTexture 0,
      OpenGL.Cmd.glBindTexture (OpenGL.toGLuint (FindTextureID s "floorTexture")),
      ShaderManager.setIntValue "objectTexture" 0]
  ++ SetTextureUVScale true 4 4
  ++ SetShaderMaterial s env.material "default"
  ++ [OpenGL.Cmd.draw OpenGL.Mesh.plane,
      OpenGL.Cmd.glBindTexture 0,
      ShaderManager.setBoolValue "bUseTexture" false]

/-- The function `SceneManager::RenderScene`: the commands it issues, in
order, for a scene manager whose `m_pShaderManager` is non-null. -/
def RenderScene (env : RenderEnv) (s : State) : List (OpenGL.Cmd ℚ) :=
  RenderScene.floor env s ++ RenderDrone env s

/-- Whether a decode result is an image with 3 or 4 colour channels, the
inputs on which `CreateGLTexture` succeeds. -/
def CreateGLTexture.supported (image : Option StbImage) : Bool :=
  match image with
  | some img => decide (img.colorChannels = 3 ∨ img.colorChannels = 4)
  | none => false

/-- One call of `CreateGLTexture` made by `PrepareScene`: file, tag, result. -/
structure LoadAttempt where
  filename : String
  tag : String
  result : Bool
deriving DecidableEq

/-- The running state of `PrepareScene` while it loads textures.  `generated`
and `loads` are ghost fields: the number of `glGenTextures` calls so far, and
the calls of `CreateGLTexture` so far. -/
structure PrepareScene.Progress where
  state : State
  generated : Nat
  loads : List LoadAttempt

/-- One statement `if (!CreateGLTexture(filename, tag)) { std::cerr << ... }` of
`PrepareScene`.  `stbi_load` gives the decode result of each file and
`glGenTextures n` the name written by the call number `n` of `glGenTextures`
(made whenever the file decoded). -/
def PrepareScene.load (stbi_load : String → Option StbImage) (glGenTextures : Nat → Nat)
    (filename tag : String) (p : PrepareScene.Progress) : PrepareScene.Progress :=
  let r := CreateGLTexture (stbi_load filename) (glGenTextures p.generated) tag p.state
  { state := r.2
    generated := if (stbi_load filename).isSome = true then p.generated + 1 else p.generated
    loads := p.loads ++ [{ filename := filename, tag := tag, result := r.1 }] }

/-- The uniform writes at the end of `PrepareScene`: the four light sources. -/
def PrepareScene.lights : List (OpenGL.Cmd ℚ) :=
  [ShaderManager.setVec3Value "lightSources[0].ambientColor" (1 / 5) (1 / 5) (1 / 5),
   ShaderManager.setVec3Value "lightSources[0].diffuseColor" (3 / 5) (3 / 5) (3 / 5),
   ShaderManager.setVec3Value "lightSources[0].specularColor" (4 / 5) (4 / 5) (4 / 5),
   ShaderManager.setFloatValue "lightSources[0].specularIntensity" (4 / 5),
   ShaderManager.setFloatValue "lightSources[0].focalStrength" 48,
   ShaderManager.setVec3Value "lightSources[1].position" (-4) 3 (-4),
   ShaderManager.setVec3Value "lightSources[1].ambientColor" (1 / 5) (1 / 5) (1 / 5),
   ShaderManager.setVec3Value "lightSources[1].diffuseColor" (3 / 10) (3 / 10) (3 / 10),
   ShaderManager.setVec3Value "lightSources[1].specularColor" (3 / 10) (3 / 10) (3 / 10),
   ShaderManager.setFloatValue "lightSources[1].focalStrength" 16,
   ShaderManager.setFloatValue "lightSources[1].specularIntensity" (1 / 2),
   ShaderManager.setVec3Value "lightSources[2].position" 0 10 0,
   ShaderManager.setVec3Value "lightSources[2].ambientColor" (1 / 10) (1 / 10) (1 / 10),
   ShaderManager.setVec3Value "lightSources[2].diffuseColor" (1 / 4) (1 / 4) (1 / 4),
   ShaderManager.setVec3Value "lightSources[2].specularColor" (3 / 10) (3 / 10) (3 / 10),
   ShaderManager.setFloatValue "lightSources[2].focalStrength" 32,
   ShaderManager.setFloatValue "lightSources[2].specularIntensity" (1 / 2),
   ShaderManager.setVec3Value "lightSources[3].position" 0 (-2) 0,
   ShaderManager.setVec3Value "lightSources[3].ambientColor" (1 / 20) (1 / 20) (1 / 20),
   ShaderManager.setVec3Value "lightSources[3].diffuseColor" (1 / 10) (1 / 10) (1 / 10),
   ShaderManager.setVec3Value "lightSources[3].specularColor" (1 / 20) (1 / 20) (1 / 20),
   ShaderManager.setFloatValue "lightSources[3].focalStrength" 16,
   ShaderManager.setFloatValue "lightSources[3].specularIntensity" (1 / 10)]

/-- What `PrepareScene` leaves behind: the scene manager state, the meshes
loaded, the calls of `CreateGLTexture` it made (ghost) and the uniform writes
it issued. -/
structure PrepareScene.Result where
  state : State
  meshes : List OpenGL.Mesh
  loads : List LoadAttempt
  commands : List (OpenGL.Cmd ℚ)

/-- The six texture loads of `PrepareScene`, in program order. -/
def PrepareScene.textures (stbi_load : String → Option StbImage) (glGenTextures : Nat → Nat)
    (s : State) : PrepareScene.Progress :=
  { state := s, generated := 0, loads := [] }
    |> PrepareScene.load stbi_load glGenTextures "Resources/stainless_end.jpg" "droneTextureBlack"
    |> PrepareScene.load stbi_load glGenTextures "Resources/tilesf2.jpg" "droneTextureTiles"
    |> PrepareScene.load stbi_load glGenTextures "Resources/backdrop.jpg" "droneTextureBackDrops"
    |> PrepareScene.load stbi_load glGenTextures "Resources/pavers.jpg" "droneTextureStainlessEnd"
    |> PrepareScene.load stbi_load glGenTextures "Resources/rusticwood.jpg" "floorTexture"
    |> PrepareScene.load stbi_load glGenTextures "Resources/abstract.jpg" "cameraLens"

/-- The function `SceneManager::PrepareScene`, for a scene manager whose
`m_pShaderManager` is non-null: the three meshes, the six texture loads, the
material tagged "default" appended to the table, and the light uniforms.  The
messages written to `std::cerr` are not part of the model. -/
def PrepareScene (stbi_load : String → Option StbImage) (glGenTextures : Nat → Nat)
    (s : State) : PrepareScene.Result :=
  let p := PrepareScene.textures stbi_load glGenTextures s
  { state := { p.state with m_objectMaterials := p.state.m_objectMaterials ++ [droneMaterial] }
    meshes := [OpenGL.Mesh.plane, OpenGL.Mesh.box, OpenGL.Mesh.cylinder]
    loads := p.loads
    commands := PrepareScene.lights }

/-- The tags of the registered entries, in registration order. -/
def registeredTags (s : State) : List String :=
  (List.range s.m_loadedTextures).map (fun i => (s.m_textureIDs i).tag)

/-- A decoder for concrete evaluation: the floor image decodes with 3
channels, "abstract.jpg" decodes with 1 channel, every other file fails. -/
def sampleDecoder (filename : String) : Option StbImage :=
  if filename = "Resources/rusticwood.jpg" then some rgbImage
  else if filename = "Resources/abstract.jpg" then some greyImage
  else none

end SceneManager

namespace ViewManager

/-- The library functions behind the matrices of `PrepareSceneView`:
`Camera::GetViewMatrix` (in `camera.h`) and `glm::ortho`, `glm::perspective`,
`glm::radians`; they are parameters of the model. -/
structure ViewLib where
  GetViewMatrix : Camera → glm.mat4 ℚ
  ortho : ℚ → ℚ → ℚ → ℚ → ℚ → ℚ → glm.mat4 ℚ
  perspective : ℚ → ℚ → ℚ → ℚ → glm.mat4 ℚ
  radians : ℚ → ℚ

/-- The projection matrix `PrepareSceneView` defines, from the state after
its keyboard processing. -/
def PrepareSceneView.projection (g : ViewLib) (s : State) : glm.mat4 ℚ :=
  if s.bOrthographicProjection = true then
    g.ortho (-s.gOrthoZoom) s.gOrthoZoom
      (-s.gOrthoZoom * (WINDOW_HEIGHT : ℚ) / (WINDOW_WIDTH : ℚ))
      (s.gOrthoZoom * (WINDOW_HEIGHT : ℚ) / (WINDOW_WIDTH : ℚ))
      (1 / 10) 100
  else
    g.perspective (g.radians s.camera.Zoom) ((WINDOW_WIDTH : ℚ) / (WINDOW_HEIGHT : ℚ))
      (1 / 10) 100

/-- The uniform writes of `PrepareSceneView`, from the state after its
keyboard processing.  `shader` tells whether `m_pShaderManager` is non-null. -/
def PrepareSceneView.uniforms (g : ViewLib) (shader : Bool) (s : State) : List (OpenGL.Cmd ℚ) :=
  if shader = true then
    [ShaderManager.setMat4Value "view" (g.GetViewMatrix s.camera),
     ShaderManager.setMat4Value "projection" (PrepareSceneView.projection g s),
     ShaderManager.setVec3Value "viewPosition"
       s.camera.Position.x s.camera.Position.y s.camera.Position.z]
  else []

/-- The commands of one frame: `PrepareSceneView` on the view state, then
`RenderScene` on the scene. -/
def frameCommands (lib : CameraLib) (g : ViewLib) (shader : Bool) (currentFrame : ℚ) (k : Keys)
    (v : State) (env : SceneManager.RenderEnv) (scene : SceneManager.State) : List (OpenGL.Cmd ℚ) :=
  PrepareSceneView.uniforms g shader (PrepareSceneView lib currentFrame k v)
    ++ SceneManager.RenderScene env scene

end ViewManager

/-! ## Properties of the texture registry -/

namespace SceneManager

theorem exists_FirstAt (s : State) (tag : String)
    (h : ∃ i, i < s.m_loadedTextures ∧ (s.m_textureIDs i).tag = tag) :
    ∃ i, FirstAt s tag i := by
  classical
  refine ⟨Nat.find h, (Nat.find_spec h).1, (Nat.find_spec h).2, ?_⟩
  intro j hj hjt
  exact Nat.find_min h hj ⟨lt_trans hj (Nat.find_spec h).1, hjt⟩

theorem FindTextureID_loop_absent (s : State) (tag : String) :
    ∀ (k : Nat) (st : FindLoop), st.bFound = false → st.index + k = s.m_loadedTextures →
      (∀ j, st.index ≤ j → j < s.m_loadedTextures → (s.m_textureIDs j).tag ≠ tag) →
      FindTextureID.loop s tag st =
        { result := st.result, index := s.m_loadedTextures, bFound := false,
          examined := st.examined ++ List.range' st.index k } := by
  intro k
  induction k with
  | zero =>
    intro st hb hk _
    rw [FindTextureID.loop]
    have : ¬ st.index < s.m_loadedTextures := by omega
    cases st
    simp_all
  | succ k ih =>
    intro st hb hk hne
    rw [FindTextureID.loop]
    have hlt : st.index < s.m_loadedTextures := by omega
    have hne0 := hne st.index (le_refl _) hlt
    simp only [hlt, hb, and_self, if_true, hne0, if_false]
    rw [ih]
    · simp [List.range'_succ]
    · rfl
    · simp only; omega
    · intro j hj hjn
      exact hne j (by simp only at hj; omega) hjn

theorem FindTextureID_loop_found (s : State) (tag : String) (i : Nat)
    (hi : i < s.m_loadedTextures) (hti : (s.m_textureIDs i).tag = tag) :
    ∀ (k : Nat) (st : FindLoop), st.bFound = false → st.index + k = i →
      (∀ j, st.index ≤ j → j < i → (s.m_textureIDs j).tag ≠ tag) →
      FindTextureID.loop s tag st =
        { result := GLuintToInt (s.m_textureIDs i).ID, index := i, bFound := true,
          examined := st.examined ++ List.range' st.index (k + 1) } := by
  intro k
  induction k with
  | zero =>
    intro st hb hk _
    have hidx : st.index = i := by omega
    rw [FindTextureID.loop]
    simp only [hidx, hi, hb, and_self, if_true, hti]
    rw [FindTextureID.loop]
    simp
  | succ k ih =>
    intro st hb hk hne
    rw [FindTextureID.loop]
    have hlt : st.index < s.m_loadedTextures := by omega
    have hne0 := hne st.index (le_refl _) (by omega)
    simp only [hlt, hb, and_self, if_true, hne0, if_false]
    rw [ih]
    · simp [List.range'_succ]
    · rfl
    · simp only; omega
    · intro j hj hjn
      exact hne j (by simp only at hj; omega) hjn

theorem FindTextureSlot_loop_absent (s : State) (tag : String) :
    ∀ (k : Nat) (st : FindLoop), st.bFound = false → st.index + k = s.m_loadedTextures →
      (∀ j, st.index ≤ j → j < s.m_loadedTextures → (s.m_textureIDs j).tag ≠ tag) →
      FindTextureSlot.loop s tag st =
        { result := st.result, index := s.m_loadedTextures, bFound := false,
          examined := st.examined ++ List.range' st.index k } := by
  intro k
  induction k with
  | zero =>
    intro st hb hk _
    rw [FindTextureSlot.loop]
    have : ¬ st.index < s.m_loadedTextures := by omega
    cases st
    simp_all
  | succ k ih =>
    intro st hb hk hne
    rw [FindTextureSlot.loop]
    have hlt : st.index < s.m_loadedTextures := by omega
    have hne0 := hne st.index (le_refl _) hlt
    simp only [hlt, hb, and_self, if_true, hne0, if_false]
    rw [ih]
    · simp [List.range'_succ]
    · rfl
    · simp only; omega
    · intro j hj hjn
      exact hne j (by simp only at hj; omega) hjn

theorem FindTextureSlot_loop_found (s : State) (tag : String) (i : Nat)
    (hi : i < s.m_loadedTextures) (hti : (s.m_textureIDs i).tag = tag) :
    ∀ (k : Nat) (st : FindLoop), st.bFound = false → st.index + k = i →
      (∀ j, st.index ≤ j → j < i → (s.m_textureIDs j).tag ≠ tag) →
      FindTextureSlot.loop s tag st =
        { result := (i : Int), index := i, bFound := true,
          examined := st.examined ++ List.range' st.index (k + 1) } := by
  intro k
  induction k with
  | zero =>
    intro st hb hk _
    have hidx : st.index = i := by omega
    rw [FindTextureSlot.loop]
    simp only [hidx, hi, hb, and_self, if_true, hti]
    rw [FindTextureSlot.loop]
    simp
  | succ k ih =>
    intro st hb hk hne
    rw [FindTextureSlot.loop]
    have hlt : st.index < s.m_loadedTextures := by omega
    have hne0 := hne st.index (le_refl _) (by omega)
    simp only [hlt, hb, and_self, if_true, hne0, if_false]
    rw [ih]
    · simp [List.range'_succ]
    · rfl
    · simp only; omega
    · intro j hj hjn
      exact hne j (by simp only at hj; omega) hjn

theorem FindTextureID_run_absent (s : State) (tag : String) (h : Unregistered s tag) :
    FindTextureID.run s tag =
      { result := -1, index := s.m_loadedTextures, bFound := false,
        examined := List.range s.m_loadedTextures } := by
  unfold FindTextureID.run
  rw [FindTextureID_loop_absent s tag s.m_loadedTextures _ rfl (by simp)
    (fun j _ hj => h j hj)]
  simp [List.range_eq_range']

theorem FindTextureSlot_run_absent (s : State) (tag : String) (h : Unregistered s tag) :
    FindTextureSlot.run s tag =
      { result := -1, index := s.m_loadedTextures, bFound := false,
        examined := List.range s.m_loadedTextures } := by
  unfold FindTextureSlot.run
  rw [FindTextureSlot_loop_absent s tag s.m_loadedTextures _ rfl (by simp)
    (fun j _ hj => h j hj)]
  simp [List.range_eq_range']

theorem FindTextureID_run_found (s : State) (tag : String) (i : Nat) (h : FirstAt s tag i) :
    FindTextureID.run s tag =
      { result := GLuintToInt (s.m_textureIDs i).ID, index := i, bFound := true,
        examined := List.range (i + 1) } := by
  unfold FindTextureID.run
  rw [FindTextureID_loop_found s tag i h.1 h.2.1 i _ rfl (by simp)
    (fun j _ hj => h.2.2 j hj)]
  simp [List.range_eq_range']

theorem FindTextureSlot_run_found (s : State) (tag : String) (i : Nat) (h : FirstAt s tag i) :
    FindTextureSlot.run s tag =
      { result := (i : Int), index := i, bFound := true,
        examined := List.range (i + 1) } := by
  unfold FindTextureSlot.run
  rw [FindTextureSlot_loop_found s tag i h.1 h.2.1 i _ rfl (by simp)
    (fun j _ hj => h.2.2 j hj)]
  simp [List.range_eq_range']

/-- The state a successful `CreateGLTexture` leaves. -/
theorem CreateGLTexture_supported (s : State) (img : StbImage) (textureID : Nat) (tag : String)
    (hch : img.colorChannels = 3 ∨ img.colorChannels = 4) :
    CreateGLTexture (some img) textureID tag s =
      (true,
        { s with
          m_textureIDs := Function.update s.m_textureIDs s.m_loadedTextures
            { tag := tag, ID := textureID % 4294967296 }
          m_loadedTextures := s.m_loadedTextures + 1 }) := by
  unfold CreateGLTexture
  rcases hch with h | h <;> simp [h]

/-- A failed `CreateGLTexture` hands the state back untouched. -/
theorem CreateGLTexture_unsupported (s : State) (image : Option StbImage) (textureID : Nat)
    (tag : String)
    (hfail : image = none ∨
      ∃ img, image = some img ∧ img.colorChannels ≠ 3 ∧ img.colorChannels ≠ 4) :
    CreateGLTexture image textureID tag s = (false, s) := by
  unfold CreateGLTexture
  rcases hfail with h | ⟨img, h, h3, h4⟩ <;> subst h <;> simp [*]

/-- A new entry whose tag is not yet registered is the first entry with that tag. -/
theorem FirstAt_registered_new (s : State) (textureID : Nat) (tag : String)
    (h : Unregistered s tag) :
    FirstAt
      { s with
        m_textureIDs := Function.update s.m_textureIDs s.m_loadedTextures
          { tag := tag, ID := textureID % 4294967296 }
        m_loadedTextures := s.m_loadedTextures + 1 } tag s.m_loadedTextures := by
  refine ⟨by simp, by simp, ?_⟩
  intro j hj
  have hjne : j ≠ s.m_loadedTextures := by omega
  simpa [Function.update_noteq hjne] using h j hj

/-- Registering a further entry keeps the first entry of every tag already registered. -/
theorem FirstAt_registered_old (s : State) (textureID : Nat) (tag tag1 : String) (i : Nat)
    (h : FirstAt s tag1 i) :
    FirstAt
      { s with
        m_textureIDs := Function.update s.m_textureIDs s.m_loadedTextures
          { tag := tag, ID := textureID % 4294967296 }
        m_loadedTextures := s.m_loadedTextures + 1 } tag1 i := by
  obtain ⟨hi, hti, hmin⟩ := h
  have hine : i ≠ s.m_loadedTextures := by omega
  refine ⟨by simp only; omega, by simpa [Function.update_noteq hine] using hti, ?_⟩
  intro j hj
  have hjne : j ≠ s.m_loadedTextures := by omega
  simpa [Function.update_noteq hjne] using hmin j hj

/-- Lookup results in the one-entry registry `floorRegistry`. -/
theorem floorRegistry_eval :
    floorRegistry.m_loadedTextures = 1 ∧
    (floorRegistry.m_textureIDs 0).tag = "floorTexture" ∧
    (floorRegistry.m_textureIDs 0).ID = 1 := by
  simp [floorRegistry, CreateGLTexture, rgbImage, emptyRegistry]

/-- A name below 2^31 keeps its value when assigned to an `int`. -/
theorem GLuintToInt_of_lt (v : Nat) (h : v < 2147483648) : GLuintToInt v = (v : Int) := by
  have hmod : v % 4294967296 = v := Nat.mod_eq_of_lt (by omega)
  simp [GLuintToInt, hmod, h]

/-- The `int` a name converts to depends on the name modulo 2^32 only. -/
theorem GLuintToInt_mod (v : Nat) : GLuintToInt (v % 4294967296) = GLuintToInt v := by
  simp [GLuintToInt]

/-- Content of the one-entry registry `highNameRegistry`. -/
theorem highNameRegistry_eval :
    highNameRegistry.m_loadedTextures = 1 ∧
    (highNameRegistry.m_textureIDs 0).tag = "floorTexture" ∧
    (highNameRegistry.m_textureIDs 0).ID = 4294967295 := by
  simp [highNameRegistry, CreateGLTexture, rgbImage, emptyRegistry]

/-! ### C1 -/

/-- C1, as stated, fails, in two ways.  In the registry holding
("floorTexture", 1), a successful `CreateGLTexture` that generates texture
name 2 for the same tag "floorTexture" returns true, and
`FindTextureID "floorTexture"` afterwards returns 1, the handle of the older
entry, not the handle 2 of this call.  And a successful `CreateGLTexture` for
the new tag "cameraLens" for which `glGenTextures` wrote the name 4294967295
is followed by `FindTextureID "cameraLens"` returning -1, the `int` that
name converts to. -/
theorem C1_counterexample :
    (CreateGLTexture (some rgbImage) 2 "floorTexture" floorRegistry).1 = true ∧
    FindTextureID (CreateGLTexture (some rgbImage) 2 "floorTexture" floorRegistry).2
      "floorTexture" = 1 ∧
    FindTextureID (CreateGLTexture (some rgbImage) 2 "floorTexture" floorRegistry).2
      "floorTexture" ≠ 2 ∧
    (CreateGLTexture (some rgbImage) 4294967295 "cameraLens" floorRegistry).1 = true ∧
    FindTextureID (CreateGLTexture (some rgbImage) 4294967295 "cameraLens" floorRegistry).2
      "cameraLens" = -1 := by
  simp [FindTextureID, FindTextureID.run, FindTextureID.loop, floorRegistry, CreateGLTexture,
    rgbImage, emptyRegistry, GLuintToInt]

/-- C1, amended: for every registry state, tag and image with 3 or 4 channels,
`CreateGLTexture` returns true; afterwards, when no entry registered before
the call carries the tag, `FindTextureID tag` returns the handle generated by
this call as the `int` it converts to, which is the handle itself whenever
the handle is below 2^31; and when an older entry carries the tag it returns
what it returned before the call (the handle of the first older entry with
that tag). -/
theorem C1_load_then_find_new_tag (s : State) (img : StbImage) (textureID : Nat) (tag : String)
    (hch : img.colorChannels = 3 ∨ img.colorChannels = 4) :
    (CreateGLTexture (some img) textureID tag s).1 = true ∧
    ((∀ j, j < s.m_loadedTextures → (s.m_textureIDs j).tag ≠ tag) →
      FindTextureID (CreateGLTexture (some img) textureID tag s).2 tag =
        GLuintToInt textureID ∧
      (textureID < 2147483648 →
        FindTextureID (CreateGLTexture (some img) textureID tag s).2 tag = (textureID : Int))) ∧
    ((∃ j, j < s.m_loadedTextures ∧ (s.m_textureIDs j).tag = tag) →
      FindTextureID (CreateGLTexture (some img) textureID tag s).2 tag = FindTextureID s tag) := by
  rw [CreateGLTexture_supported s img textureID tag hch]
  refine ⟨rfl, ?_, ?_⟩
  · intro hnew
    have h := FirstAt_registered_new s textureID tag hnew
    have hval : FindTextureID
        { s with
          m_textureIDs := Function.update s.m_textureIDs s.m_loadedTextures
            { tag := tag, ID := textureID % 4294967296 }
          m_loadedTextures := s.m_loadedTextures + 1 } tag = GLuintToInt textureID := by
      simp only [FindTextureID, FindTextureID_run_found _ tag _ h]
      simp [GLuintToInt_mod]
    exact ⟨hval, fun hlt => by rw [hval, GLuintToInt_of_lt textureID hlt]⟩
  · intro hold
    obtain ⟨i, hi⟩ := exists_FirstAt s tag hold
    have h := FirstAt_registered_old s textureID tag tag i hi
    have hine : i ≠ s.m_loadedTextures := by have := hi.1; omega
    simp only [FindTextureID, FindTextureID_run_found _ tag _ h, FindTextureID_run_found _ tag _ hi]
    simp [Function.update_noteq hine]

/-- Witness for C1 (amended): a 3-channel load of a fresh tag into the
one-entry registry. -/
theorem C1_load_then_find_new_tag_witness :
    (rgbImage.colorChannels = 3 ∨ rgbImage.colorChannels = 4) ∧
    (CreateGLTexture (some rgbImage) 2 "cameraLens" floorRegistry).1 = true ∧
    FindTextureID (CreateGLTexture (some rgbImage) 2 "cameraLens" floorRegistry).2
      "cameraLens" = 2 := by
  have hch : rgbImage.colorChannels = 3 ∨ rgbImage.colorChannels = 4 := Or.inl rfl
  have h := C1_load_then_find_new_tag floorRegistry rgbImage 2 "cameraLens" hch
  refine ⟨hch, h.1, ?_⟩
  have := (h.2.1 (by
    intro j hj
    have hj0 : j = 0 := by
      have := floorRegistry_eval.1
      omega
    subst hj0
    rw [floorRegistry_eval.2.1]
    decide)).2 (by decide)
  simpa using this

/-! ### C2 -/

/-- C2: for every registry state and every tag carried by no registered entry
(the empty registry included), `FindTextureID` and `FindTextureSlot` both
return -1, and each loop ends with `index = m_loadedTextures`, nothing found,
having compared the tags at indices 0, 1, ..., m_loadedTextures - 1, each
exactly once and in this order. -/
theorem C2_unregistered_tag_gives_sentinel (s : State) (tag : String)
    (h : ∀ j, j < s.m_loadedTextures → (s.m_textureIDs j).tag ≠ tag) :
    FindTextureID s tag = -1 ∧ FindTextureSlot s tag = -1 ∧
    (FindTextureID.run s tag).examined = List.range s.m_loadedTextures ∧
    (FindTextureSlot.run s tag).examined = List.range s.m_loadedTextures ∧
    (FindTextureID.run s tag).index = s.m_loadedTextures ∧
    (FindTextureSlot.run s tag).index = s.m_loadedTextures ∧
    (FindTextureID.run s tag).bFound = false ∧
    (FindTextureSlot.run s tag).bFound = false := by
  simp [FindTextureID, FindTextureSlot, FindTextureID_run_absent s tag h,
    FindTextureSlot_run_absent s tag h]

/-- Witness for C2: the tag "cameraLens" in the one-entry registry. -/
theorem C2_unregistered_tag_gives_sentinel_witness :
    FindTextureID floorRegistry "cameraLens" = -1 ∧
    FindTextureSlot floorRegistry "cameraLens" = -1 ∧
    (FindTextureID.run floorRegistry "cameraLens").examined = [0] := by
  have h := C2_unregistered_tag_gives_sentinel floorRegistry "cameraLens" (by
    intro j hj
    have hj0 : j = 0 := by
      have := floorRegistry_eval.1
      omega
    subst hj0
    rw [floorRegistry_eval.2.1]
    decide)
  refine ⟨h.1, h.2.1, ?_⟩
  rw [h.2.2.1, floorRegistry_eval.1]
  rfl

/-! ### C3 -/

/-- C3, as stated, fails.  In the registry left by one successful load of
"floorTexture" for which `glGenTextures` wrote the name 4294967295, the tag
is registered at index 0 and `FindTextureSlot` returns 0, but `FindTextureID`
returns -1 (the `int` that name converts to, and the not-found value), not
the handle 4294967295 stored at index 0. -/
theorem C3_counterexample :
    highNameRegistry.m_loadedTextures = 1 ∧
    (highNameRegistry.m_textureIDs 0).tag = "floorTexture" ∧
    (highNameRegistry.m_textureIDs 0).ID = 4294967295 ∧
    FindTextureSlot highNameRegistry "floorTexture" = 0 ∧
    FindTextureID highNameRegistry "floorTexture" = -1 ∧
    FindTextureID highNameRegistry "floorTexture" ≠
      (((highNameRegistry.m_textureIDs 0).ID : Nat) : Int) := by
  refine ⟨highNameRegistry_eval.1, highNameRegistry_eval.2.1, highNameRegistry_eval.2.2,
    ?_, ?_, ?_⟩
  · simp [FindTextureSlot, FindTextureSlot.run, FindTextureSlot.loop, highNameRegistry,
      CreateGLTexture, rgbImage, emptyRegistry]
  · simp [FindTextureID, FindTextureID.run, FindTextureID.loop, highNameRegistry,
      CreateGLTexture, rgbImage, emptyRegistry, GLuintToInt]
  · rw [highNameRegistry_eval.2.2]
    simp [FindTextureID, FindTextureID.run, FindTextureID.loop, highNameRegistry,
      CreateGLTexture, rgbImage, emptyRegistry, GLuintToInt]

/-- C3, amended: for every registry state and every tag carried by some
registered entry there is a least index `i` below `m_loadedTextures` whose
entry has the tag; `FindTextureSlot` returns `i`, and `FindTextureID` returns
the handle stored at `i` as the `int` it converts to, which is the handle
itself whenever the handle is below 2^31.  Moreover a successful
`CreateGLTexture` registers at position `m_loadedTextures`: a tag not
registered before is found at that slot afterwards, and a tag registered
before keeps its slot. -/
theorem C3_slot_is_first_registration (s : State) (tag : String)
    (h : ∃ j, j < s.m_loadedTextures ∧ (s.m_textureIDs j).tag = tag) :
    (∃ i, i < s.m_loadedTextures ∧ (s.m_textureIDs i).tag = tag ∧
      (∀ j, j < i → (s.m_textureIDs j).tag ≠ tag) ∧
      FindTextureSlot s tag = (i : Int) ∧
      FindTextureID s tag = GLuintToInt (s.m_textureIDs i).ID ∧
      ((s.m_textureIDs i).ID < 2147483648 →
        FindTextureID s tag = ((s.m_textureIDs i).ID : Int))) ∧
    (∀ (img : StbImage) (textureID : Nat) (newTag : String),
      img.colorChannels = 3 ∨ img.colorChannels = 4 →
      FindTextureSlot (CreateGLTexture (some img) textureID newTag s).2 tag =
        FindTextureSlot s tag ∧
      ((∀ j, j < s.m_loadedTextures → (s.m_textureIDs j).tag ≠ newTag) →
        FindTextureSlot (CreateGLTexture (some img) textureID newTag s).2 newTag =
          (s.m_loadedTextures : Int))) := by
  obtain ⟨i, hi⟩ := exists_FirstAt s tag h
  have hid : FindTextureID s tag = GLuintToInt (s.m_textureIDs i).ID := by
    simp [FindTextureID, FindTextureID_run_found s tag i hi]
  refine ⟨⟨i, hi.1, hi.2.1, hi.2.2, ?_, hid,
    fun hlt => by rw [hid, GLuintToInt_of_lt _ hlt]⟩, ?_⟩
  · simp [FindTextureSlot, FindTextureSlot_run_found s tag i hi]
  · intro img textureID newTag hch
    rw [CreateGLTexture_supported s img textureID newTag hch]
    refine ⟨?_, ?_⟩
    · have hold := FirstAt_registered_old s textureID newTag tag i hi
      simp [FindTextureSlot, FindTextureSlot_run_found _ tag i hold,
        FindTextureSlot_run_found s tag i hi]
    · intro hnew
      have hn := FirstAt_registered_new s textureID newTag hnew
      simp [FindTextureSlot, FindTextureSlot_run_found _ newTag _ hn]

/-- Witness for C3 (amended): "floorTexture" in the one-entry registry sits at
slot 0 with handle 1. -/
theorem C3_slot_is_first_registration_witness :
    (∃ j, j < floorRegistry.m_loadedTextures ∧
      (floorRegistry.m_textureIDs j).tag = "floorTexture") ∧
    FindTextureSlot floorRegistry "floorTexture" = 0 ∧
    FindTextureID floorRegistry "floorTexture" = 1 := by
  have hex : ∃ j, j < floorRegistry.m_loadedTextures ∧
      (floorRegistry.m_textureIDs j).tag = "floorTexture" :=
    ⟨0, by rw [floorRegistry_eval.1]; decide, floorRegistry_eval.2.1⟩
  obtain ⟨⟨i, hi, _, _, hslot, _, hid⟩, _⟩ :=
    C3_slot_is_first_registration floorRegistry "floorTexture" hex
  have hi0 : i = 0 := by
    have := floorRegistry_eval.1
    omega
  subst hi0
  refine ⟨hex, by simpa using hslot, ?_⟩
  rw [hid (by rw [floorRegistry_eval.2.2]; decide), floorRegistry_eval.2.2]
  rfl

/-! ### C4 -/

/-- C4: for every registry state, decode result and tag, `CreateGLTexture`
returns true exactly when the image decoded and has 3 or 4 channels; when the
image did not decode, or decoded with another channel count, it returns false
and the state after the call is the state before it, so `m_loadedTextures`,
every array entry, and the results of `FindTextureID` and `FindTextureSlot`
for every tag are what they were. -/
theorem C4_failed_load_leaves_registry (s : State) (image : Option StbImage) (textureID : Nat)
    (tag : String) :
    ((CreateGLTexture image textureID tag s).1 = true ↔
      ∃ img, image = some img ∧ (img.colorChannels = 3 ∨ img.colorChannels = 4)) ∧
    ((image = none ∨ ∃ img, image = some img ∧ img.colorChannels ≠ 3 ∧ img.colorChannels ≠ 4) →
      (CreateGLTexture image textureID tag s).1 = false ∧
      (CreateGLTexture image textureID tag s).2 = s ∧
      (CreateGLTexture image textureID tag s).2.m_loadedTextures = s.m_loadedTextures ∧
      (∀ i, (CreateGLTexture image textureID tag s).2.m_textureIDs i = s.m_textureIDs i) ∧
      (∀ t, FindTextureID (CreateGLTexture image textureID tag s).2 t = FindTextureID s t) ∧
      (∀ t, FindTextureSlot (CreateGLTexture image textureID tag s).2 t =
        FindTextureSlot s t)) := by
  refine ⟨?_, ?_⟩
  · cases image with
    | none => simp [CreateGLTexture]
    | some img =>
      by_cases h3 : img.colorChannels = 3
      · simp [CreateGLTexture, h3]
      · by_cases h4 : img.colorChannels = 4
        · simp [CreateGLTexture, h4]
        · simp [CreateGLTexture, h3, h4]
  · intro hfail
    rw [CreateGLTexture_unsupported s image textureID tag hfail]
    simp

/-- Witness for C4: an undecodable file and a 1-channel image, loaded into the
one-entry registry, both fail and leave "floorTexture" at slot 0. -/
theorem C4_failed_load_leaves_registry_witness :
    (CreateGLTexture none 2 "cameraLens" floorRegistry).1 = false ∧
    (CreateGLTexture none 2 "cameraLens" floorRegistry).2 = floorRegistry ∧
    (CreateGLTexture (some greyImage) 2 "cameraLens" floorRegistry).1 = false ∧
    (CreateGLTexture (some greyImage) 2 "cameraLens" floorRegistry).2 = floorRegistry := by
  have h1 := (C4_failed_load_leaves_registry floorRegistry none 2 "cameraLens").2 (Or.inl rfl)
  have h2 := (C4_failed_load_leaves_registry floorRegistry (some greyImage) 2 "cameraLens").2
    (Or.inr ⟨greyImage, rfl, by decide, by decide⟩)
  exact ⟨h1.1, h1.2.1, h2.1, h2.2.1⟩

/-! ### C5 -/

/-- For every non-empty material table `FindMaterial` returns true, whatever the tag. -/
theorem FindMaterial_true_of_nonempty (s : State) (tag : String) (material : OBJECT_MATERIAL) :
    (FindMaterial s tag material).1 = true ↔ s.m_objectMaterials ≠ [] := by
  unfold FindMaterial
  by_cases h : s.m_objectMaterials.length = 0
  · simp [h, List.length_eq_zero.mp h]
  · have : s.m_objectMaterials ≠ [] := fun he => h (by simp [he])
    simp [h, this]

/-- C5, the code at the failing input: with the table holding only the
material tagged "default", `FindMaterial "missing"` returns true although no
material in the table carries the tag "missing", and the caller's material
comes back unchanged. -/
theorem C5_FindMaterial_reports_found_for_absent_tag :
    (∀ m ∈ defaultMaterialScene.m_objectMaterials, m.tag ≠ "missing") ∧
    defaultMaterialScene.m_objectMaterials ≠ [] ∧
    FindMaterial defaultMaterialScene "missing" blankMaterial = (true, blankMaterial) := by
  refine ⟨?_, ?_, ?_⟩
  · simp [defaultMaterialScene, droneMaterial]
  · simp [defaultMaterialScene]
  · simp [FindMaterial, FindMaterial.loop, defaultMaterialScene, droneMaterial, emptyRegistry]

end SceneManager

/-! ## Properties of the camera and projection controller -/

namespace ViewManager

/-- A state that differs from `s` at most in the camera and the close flag. -/
theorem move_frame (lib : CameraLib) (key : KeyState) (d : Camera_Movement) (s : State)
    (c : Camera) (w : Bool) :
    ∃ c1, ProcessKeyboardEvents.move lib key d { s with camera := c, windowShouldClose := w } =
      { s with camera := c1, windowShouldClose := w } := by
  unfold ProcessKeyboardEvents.move
  split_ifs <;> exact ⟨_, rfl⟩

/-- The movement part changes at most the camera and the close flag. -/
theorem movement_frame (lib : CameraLib) (k : Keys) (s : State) :
    ∃ c w, ProcessKeyboardEvents.movement lib k s =
      { s with camera := c, windowShouldClose := w } := by
  unfold ProcessKeyboardEvents.movement
  have h0 : ∃ w, ProcessKeyboardEvents.escape k s =
      { s with camera := s.camera, windowShouldClose := w } := by
    unfold ProcessKeyboardEvents.escape
    split_ifs <;> exact ⟨_, rfl⟩
  obtain ⟨w, h0⟩ := h0
  obtain ⟨c1, h1⟩ := move_frame lib k.GLFW_KEY_W Camera_Movement.FORWARD s s.camera w
  obtain ⟨c2, h2⟩ := move_frame lib k.GLFW_KEY_S Camera_Movement.BACKWARD s c1 w
  obtain ⟨c3, h3⟩ := move_frame lib k.GLFW_KEY_A Camera_Movement.LEFT s c2 w
  obtain ⟨c4, h4⟩ := move_frame lib k.GLFW_KEY_D Camera_Movement.RIGHT s c3 w
  obtain ⟨c5, h5⟩ := move_frame lib k.GLFW_KEY_E Camera_Movement.UP s c4 w
  obtain ⟨c6, h6⟩ := move_frame lib k.GLFW_KEY_Q Camera_Movement.DOWN s c5 w
  exact ⟨c6, w, by simp only [h0, h1, h2, h3, h4, h5, h6]⟩

/-- The reset part changes at most the camera. -/
theorem reset_frame (lib : CameraLib) (k : Keys) (s : State) :
    ∃ c, ProcessKeyboardEvents.reset lib k s = { s with camera := c } := by
  unfold ProcessKeyboardEvents.reset
  split_ifs <;> exact ⟨_, rfl⟩

/-- Up to the statements on P, a frame changes at most the camera and the close flag. -/
theorem beforeToggleP_frame (lib : CameraLib) (k : Keys) (s : State) :
    ∃ c w, ProcessKeyboardEvents.beforeToggleP lib k s =
      { s with camera := c, windowShouldClose := w } := by
  unfold ProcessKeyboardEvents.beforeToggleP
  obtain ⟨c, w, h⟩ := movement_frame lib k s
  obtain ⟨c1, h1⟩ := reset_frame lib k (ProcessKeyboardEvents.movement lib k s)
  rw [h1, h]
  exact ⟨c1, w, rfl⟩

/-- The statements on P change at most the mode, the change flag and `pKeyPressed`. -/
theorem toggleP_frame (k : Keys) (s : State) :
    ∃ b c p, ProcessKeyboardEvents.toggleP k s =
      { s with bOrthographicProjection := b, bProjectionChanged := c, pKeyPressed := p } := by
  unfold ProcessKeyboardEvents.toggleP
  simp only
  split_ifs <;> exact ⟨_, _, _, rfl⟩

/-- The statements on O change at most the mode, the change flag, the camera
and `oKeyPressed`. -/
theorem toggleO_frame (lib : CameraLib) (k : Keys) (s : State) :
    ∃ b c cam o, ProcessKeyboardEvents.toggleO lib k s =
      { s with
        bOrthographicProjection := b, bProjectionChanged := c, camera := cam,
        oKeyPressed := o } := by
  unfold ProcessKeyboardEvents.toggleO
  simp only
  split_ifs <;> exact ⟨_, _, _, _, rfl⟩

/-- With P reported pressed and `pKeyPressed` set, the statements on P change nothing. -/
theorem toggleP_held (k : Keys) (s : State) (hk : k.GLFW_KEY_P = KeyState.GLFW_PRESS)
    (hp : s.pKeyPressed = true) : ProcessKeyboardEvents.toggleP k s = s := by
  simp [ProcessKeyboardEvents.toggleP, hk, hp]

/-- With O reported pressed and `oKeyPressed` set, the statements on O change nothing. -/
theorem toggleO_held (lib : CameraLib) (k : Keys) (s : State)
    (hk : k.GLFW_KEY_O = KeyState.GLFW_PRESS) (ho : s.oKeyPressed = true) :
    ProcessKeyboardEvents.toggleO lib k s = s := by
  simp [ProcessKeyboardEvents.toggleO, hk, ho]

/-- A fresh press of P: the mode becomes Perspective and nothing but the two flags changes. -/
theorem toggleP_fresh (k : Keys) (s : State) (hk : k.GLFW_KEY_P = KeyState.GLFW_PRESS)
    (hp : s.pKeyPressed = false) :
    ProcessKeyboardEvents.toggleP k s =
      { s with bOrthographicProjection := false, bProjectionChanged := true,
               pKeyPressed := true } := by
  simp [ProcessKeyboardEvents.toggleP, hk, hp]

/-- A fresh press of O: the mode becomes Orthographic and the pose is reset. -/
theorem toggleO_fresh (lib : CameraLib) (k : Keys) (s : State)
    (hk : k.GLFW_KEY_O = KeyState.GLFW_PRESS) (ho : s.oKeyPressed = false) :
    ProcessKeyboardEvents.toggleO lib k s =
      { s with
        bOrthographicProjection := true
        bProjectionChanged := true
        camera := updateCameraVectors lib
          { s.camera with Position := ⟨0, 4, 10⟩, Yaw := -90, Pitch := 0 }
        oKeyPressed := true } := by
  simp [ProcessKeyboardEvents.toggleO, hk, ho]

/-- With P reported released, the statements on P only clear `pKeyPressed`. -/
theorem toggleP_released (k : Keys) (s : State) (hk : k.GLFW_KEY_P = KeyState.GLFW_RELEASE) :
    ProcessKeyboardEvents.toggleP k s = { s with pKeyPressed := false } := by
  simp [ProcessKeyboardEvents.toggleP, hk]

/-- With O reported released, the statements on O only clear `oKeyPressed`. -/
theorem toggleO_released (lib : CameraLib) (k : Keys) (s : State)
    (hk : k.GLFW_KEY_O = KeyState.GLFW_RELEASE) :
    ProcessKeyboardEvents.toggleO lib k s = { s with oKeyPressed := false } := by
  simp [ProcessKeyboardEvents.toggleO, hk]

/-- Up to the statements on O, a frame leaves `oKeyPressed` alone. -/
theorem beforeToggleO_oKeyPressed (lib : CameraLib) (k : Keys) (s : State) :
    (ProcessKeyboardEvents.beforeToggleO lib k s).oKeyPressed = s.oKeyPressed := by
  unfold ProcessKeyboardEvents.beforeToggleO
  obtain ⟨c, w, h⟩ := beforeToggleP_frame lib k s
  obtain ⟨b, c1, p, h1⟩ := toggleP_frame k (ProcessKeyboardEvents.beforeToggleP lib k s)
  rw [h1, h]

/-- Up to the statements on P, a frame leaves `pKeyPressed` alone. -/
theorem beforeToggleP_pKeyPressed (lib : CameraLib) (k : Keys) (s : State) :
    (ProcessKeyboardEvents.beforeToggleP lib k s).pKeyPressed = s.pKeyPressed := by
  obtain ⟨c, w, h⟩ := beforeToggleP_frame lib k s
  rw [h]

/-- What a whole `ProcessKeyboardEvents` can change. -/
theorem ProcessKeyboardEvents_frame (lib : CameraLib) (k : Keys) (s : State) :
    ∃ cam w b c p o, ProcessKeyboardEvents lib k s =
      { s with
        camera := cam, windowShouldClose := w, bOrthographicProjection := b,
        bProjectionChanged := c, pKeyPressed := p, oKeyPressed := o } := by
  unfold ProcessKeyboardEvents ProcessKeyboardEvents.beforeToggleO
  obtain ⟨c, w, h⟩ := beforeToggleP_frame lib k s
  obtain ⟨b, c1, p, h1⟩ := toggleP_frame k (ProcessKeyboardEvents.beforeToggleP lib k s)
  obtain ⟨b2, c2, cam2, o2, h2⟩ := toggleO_frame lib k
    (ProcessKeyboardEvents.toggleP k (ProcessKeyboardEvents.beforeToggleP lib k s))
  rw [h2, h1, h]
  exact ⟨cam2, w, b2, c2, p, o2, rfl⟩

/-- What a whole `PrepareSceneView` can change. -/
theorem PrepareSceneView_frame (lib : CameraLib) (t : ℚ) (k : Keys) (s : State) :
    ∃ cam w b p o, PrepareSceneView lib t k s =
      { s with
        camera := cam, windowShouldClose := w, bOrthographicProjection := b,
        bProjectionChanged := false, pKeyPressed := p, oKeyPressed := o,
        gDeltaTime := t - s.gLastFrame, gLastFrame := t } := by
  unfold PrepareSceneView
  obtain ⟨cam, w, b, c, p, o, h⟩ :=
    ProcessKeyboardEvents_frame lib k (PrepareSceneView.timing t s)
  simp only [h]
  exact ⟨cam, w, b, p, o, rfl⟩

/-- In Orthographic mode a scroll sets `gOrthoZoom` to the clamped difference. -/
theorem ProcessMouseScroll_ortho (lib : CameraLib) (yoffset : ℚ) (s : State)
    (h : s.bOrthographicProjection = true) :
    (ProcessMouseScroll lib yoffset s).gOrthoZoom =
      min 50 (max 1 (s.gOrthoZoom - (1 / 2) * yoffset)) := by
  unfold ProcessMouseScroll
  simp only [h, if_true]
  by_cases h1 : s.gOrthoZoom - yoffset * (1 / 2) < 1
  · have e : max 1 (s.gOrthoZoom - 1 / 2 * yoffset) = 1 :=
      max_eq_left (by linarith)
    have h50 : ¬ ((1 : ℚ) > 50) := by norm_num
    simp only [h1, if_true, h50, if_false, e]
    norm_num
  · have hle : (1 : ℚ) ≤ s.gOrthoZoom - 1 / 2 * yoffset := by linarith
    have e : max 1 (s.gOrthoZoom - 1 / 2 * yoffset) = s.gOrthoZoom - 1 / 2 * yoffset :=
      max_eq_right hle
    simp only [h1, if_false, e]
    by_cases h2 : s.gOrthoZoom - yoffset * (1 / 2) > 50
    · simp only [h2, if_true]
      exact (min_eq_left (by linarith)).symm
    · simp only [h2, if_false]
      rw [min_eq_right (by linarith)]
      ring

/-- One event keeps `gOrthoZoom` inside [1, 50]. -/
theorem step_gOrthoZoom_bounds (lib : CameraLib) (s : State) (e : Event)
    (h : 1 ≤ s.gOrthoZoom ∧ s.gOrthoZoom ≤ 50) :
    1 ≤ (step lib s e).gOrthoZoom ∧ (step lib s e).gOrthoZoom ≤ 50 := by
  cases e with
  | frame t k =>
    obtain ⟨cam, w, b, p, o, hf⟩ := PrepareSceneView_frame lib t k s
    simp only [step, hf]
    exact h
  | cursor x y =>
    simp only [step, Mouse_Position_Callback]
    split_ifs <;> exact h
  | scroll d =>
    simp only [step]
    by_cases hb : s.bOrthographicProjection = true
    · rw [ProcessMouseScroll_ortho lib (lib.toFloat d) s hb]
      exact ⟨le_min (by norm_num) (le_max_left _ _), min_le_left _ _⟩
    · simp only [ProcessMouseScroll, hb, if_false]
      exact h

/-- A sequence of events keeps `gOrthoZoom` inside [1, 50]. -/
theorem run_gOrthoZoom_bounds (lib : CameraLib) (evs : List Event) :
    ∀ s : State, (1 ≤ s.gOrthoZoom ∧ s.gOrthoZoom ≤ 50) →
      1 ≤ (run lib s evs).gOrthoZoom ∧ (run lib s evs).gOrthoZoom ≤ 50 := by
  induction evs with
  | nil => intro s h; exact h
  | cons e es ih =>
    intro s h
    simp only [run, List.foldl_cons]
    exact ih _ (step_gOrthoZoom_bounds lib s e h)

/-! ### C6 -/

/-- C6: in Orthographic mode, for every scroll delta, `ProcessMouseScroll`
sets `gOrthoZoom` to (old - 0.5 * delta) clamped to [1, 50], so the new value
lies in [1, 50]; from 10 a delta of 1000 gives 1 and a delta of -1000 gives
50; and in every state reachable from the constructed controller by frames,
cursor events and scroll events, `gOrthoZoom` lies in [1, 50]. -/
theorem C6_ortho_zoom_clamped (lib : CameraLib) (cam0 : Camera) (s : State) (yoffset : ℚ)
    (h : s.bOrthographicProjection = true) :
    (ProcessMouseScroll lib yoffset s).gOrthoZoom =
      min 50 (max 1 (s.gOrthoZoom - (1 / 2) * yoffset)) ∧
    1 ≤ (ProcessMouseScroll lib yoffset s).gOrthoZoom ∧
    (ProcessMouseScroll lib yoffset s).gOrthoZoom ≤ 50 ∧
    (s.gOrthoZoom = 10 →
      (ProcessMouseScroll lib 1000 s).gOrthoZoom = 1 ∧
      (ProcessMouseScroll lib (-1000) s).gOrthoZoom = 50) ∧
    (init lib cam0).gOrthoZoom = 10 ∧
    (∀ r, Reachable lib cam0 r → 1 ≤ r.gOrthoZoom ∧ r.gOrthoZoom ≤ 50) := by
  refine ⟨ProcessMouseScroll_ortho lib yoffset s h, ?_, ?_, ?_, rfl, ?_⟩
  · rw [ProcessMouseScroll_ortho lib yoffset s h]
    exact le_min (by norm_num) (le_max_left _ _)
  · rw [ProcessMouseScroll_ortho lib yoffset s h]
    exact min_le_left _ _
  · intro h10
    rw [ProcessMouseScroll_ortho lib 1000 s h, ProcessMouseScroll_ortho lib (-1000) s h, h10]
    constructor <;> norm_num
  · rintro r ⟨evs, rfl⟩
    exact run_gOrthoZoom_bounds lib evs (init lib cam0) (by norm_num [init])

/-- Witness for C6: the sample controller, switched to Orthographic by a first
frame with O pressed, scrolled by 1000. -/
theorem C6_ortho_zoom_clamped_witness :
    sampleOrtho.bOrthographicProjection = true ∧
    (ProcessMouseScroll sampleLib 1000 sampleOrtho).gOrthoZoom =
      min 50 (max 1 (sampleOrtho.gOrthoZoom - (1 / 2) * 1000)) ∧
    1 ≤ (ProcessMouseScroll sampleLib 1000 sampleOrtho).gOrthoZoom := by
  have hb : sampleOrtho.bOrthographicProjection = true := by rfl
  have h := C6_ortho_zoom_clamped sampleLib sampleCamera sampleOrtho 1000 hb
  exact ⟨hb, h.1, h.2.1⟩

/-- After the statements on O with O reported pressed, `oKeyPressed` is set. -/
theorem toggleO_pressed (lib : CameraLib) (k : Keys) (s : State)
    (hk : k.GLFW_KEY_O = KeyState.GLFW_PRESS) :
    (ProcessKeyboardEvents.toggleO lib k s).oKeyPressed = true := by
  cases ho : s.oKeyPressed
  · rw [toggleO_fresh lib k s hk ho]
  · rw [toggleO_held lib k s hk ho, ho]

/-- After the statements on P with P reported pressed, `pKeyPressed` is set. -/
theorem toggleP_pressed (k : Keys) (s : State) (hk : k.GLFW_KEY_P = KeyState.GLFW_PRESS) :
    (ProcessKeyboardEvents.toggleP k s).pKeyPressed = true := by
  cases hp : s.pKeyPressed
  · rw [toggleP_fresh k s hk hp]
  · rw [toggleP_held k s hk hp, hp]

/-- The two static flags after a frame, in terms of the parts of the frame. -/
theorem PrepareSceneView_flags (lib : CameraLib) (t : ℚ) (k : Keys) (s : State) :
    (PrepareSceneView lib t k s).oKeyPressed =
      (ProcessKeyboardEvents.toggleO lib k
        (ProcessKeyboardEvents.beforeToggleO lib k (PrepareSceneView.timing t s))).oKeyPressed ∧
    (PrepareSceneView lib t k s).pKeyPressed =
      (ProcessKeyboardEvents.toggleP k
        (ProcessKeyboardEvents.beforeToggleP lib k (PrepareSceneView.timing t s))).pKeyPressed := by
  refine ⟨rfl, ?_⟩
  obtain ⟨b, c, cam, o, h⟩ := toggleO_frame lib k
    (ProcessKeyboardEvents.beforeToggleO lib k (PrepareSceneView.timing t s))
  simp only [PrepareSceneView, ProcessKeyboardEvents, h]
  rfl

/-- Cursor and scroll events leave the two static flags alone. -/
theorem step_flags_of_not_frame (lib : CameraLib) (s : State) (e : Event)
    (he : e.isFrame = false) :
    (step lib s e).oKeyPressed = s.oKeyPressed ∧ (step lib s e).pKeyPressed = s.pKeyPressed := by
  cases e with
  | frame t k => simp [Event.isFrame] at he
  | cursor x y =>
    simp only [step, Mouse_Position_Callback]
    split_ifs <;> exact ⟨rfl, rfl⟩
  | scroll d =>
    simp only [step, ProcessMouseScroll]
    split_ifs <;> exact ⟨rfl, rfl⟩

/-- While every frame reports O pressed, a set `oKeyPressed` stays set. -/
theorem run_oKeyPressed (lib : CameraLib) (evs : List Event) :
    ∀ s : State, s.oKeyPressed = true →
      (∀ t k, Event.frame t k ∈ evs → k.GLFW_KEY_O = KeyState.GLFW_PRESS) →
      (run lib s evs).oKeyPressed = true := by
  induction evs with
  | nil => intro s h _; exact h
  | cons e es ih =>
    intro s h hall
    simp only [run, List.foldl_cons]
    refine ih _ ?_ (fun t k hm => hall t k (List.mem_cons_of_mem _ hm))
    cases e with
    | frame t k =>
      simp only [step]
      rw [(PrepareSceneView_flags lib t k s).1]
      exact toggleO_pressed lib k _ (hall t k (List.mem_cons_self _ _))
    | cursor x y => rw [(step_flags_of_not_frame lib s (Event.cursor x y) rfl).1, h]
    | scroll d => rw [(step_flags_of_not_frame lib s (Event.scroll d) rfl).1, h]

/-- While every frame reports P pressed, a set `pKeyPressed` stays set. -/
theorem run_pKeyPressed (lib : CameraLib) (evs : List Event) :
    ∀ s : State, s.pKeyPressed = true →
      (∀ t k, Event.frame t k ∈ evs → k.GLFW_KEY_P = KeyState.GLFW_PRESS) →
      (run lib s evs).pKeyPressed = true := by
  induction evs with
  | nil => intro s h _; exact h
  | cons e es ih =>
    intro s h hall
    simp only [run, List.foldl_cons]
    refine ih _ ?_ (fun t k hm => hall t k (List.mem_cons_of_mem _ hm))
    cases e with
    | frame t k =>
      simp only [step]
      rw [(PrepareSceneView_flags lib t k s).2]
      exact toggleP_pressed k _ (hall t k (List.mem_cons_self _ _))
    | cursor x y => rw [(step_flags_of_not_frame lib s (Event.cursor x y) rfl).2, h]
    | scroll d => rw [(step_flags_of_not_frame lib s (Event.scroll d) rfl).2, h]

/-- A frame whose statements on O see a fresh press ends in Orthographic mode
with the canonical pose. -/
theorem PrepareSceneView_fresh_O (lib : CameraLib) (t : ℚ) (k : Keys) (s : State)
    (hk : k.GLFW_KEY_O = KeyState.GLFW_PRESS) (ho : s.oKeyPressed = false) :
    (PrepareSceneView lib t k s).bOrthographicProjection = true ∧
    (PrepareSceneView lib t k s).camera.Position = ⟨0, 4, 10⟩ ∧
    (PrepareSceneView lib t k s).camera.Yaw = -90 ∧
    (PrepareSceneView lib t k s).camera.Pitch = 0 := by
  have hb : (ProcessKeyboardEvents.beforeToggleO lib k (PrepareSceneView.timing t s)).oKeyPressed
      = false := by
    rw [beforeToggleO_oKeyPressed]
    exact ho
  simp only [PrepareSceneView, ProcessKeyboardEvents, toggleO_fresh lib k _ hk hb,
    updateCameraVectors]
  simp

/-! ### C7 -/

/-- C7: take a frame at time `t0` with keys `k0`, followed by the events `evs`
(frames, and cursor or scroll events between them).
If O is reported pressed in that frame and in every frame of `evs`, then
(1) when the press is fresh (`oKeyPressed` clear on entry) the first frame ends
in Orthographic mode with position (0,4,10), yaw -90, pitch 0, and
(2) in every later frame the two statements on O leave the whole state as they
find it, so neither the mode nor position, yaw or pitch is touched by them.
The same holds for P: (1) on a fresh press the statements on P of the first
frame set the mode to Perspective, and (2) in every later frame the statements
on P leave the whole state as they find it. -/
theorem C7_toggle_once_per_press (lib : CameraLib) (s : State) (t0 : ℚ) (k0 : Keys)
    (evs : List Event) :
    (k0.GLFW_KEY_O = KeyState.GLFW_PRESS →
      (∀ t k, Event.frame t k ∈ evs → k.GLFW_KEY_O = KeyState.GLFW_PRESS) →
      (s.oKeyPressed = false →
        (PrepareSceneView lib t0 k0 s).bOrthographicProjection = true ∧
        (PrepareSceneView lib t0 k0 s).camera.Position = ⟨0, 4, 10⟩ ∧
        (PrepareSceneView lib t0 k0 s).camera.Yaw = -90 ∧
        (PrepareSceneView lib t0 k0 s).camera.Pitch = 0) ∧
      (∀ pre t k post, evs = pre ++ Event.frame t k :: post →
        ProcessKeyboardEvents.toggleO lib k
          (ProcessKeyboardEvents.beforeToggleO lib k
            (PrepareSceneView.timing t (run lib (PrepareSceneView lib t0 k0 s) pre))) =
        ProcessKeyboardEvents.beforeToggleO lib k
          (PrepareSceneView.timing t (run lib (PrepareSceneView lib t0 k0 s) pre)))) ∧
    (k0.GLFW_KEY_P = KeyState.GLFW_PRESS →
      (∀ t k, Event.frame t k ∈ evs → k.GLFW_KEY_P = KeyState.GLFW_PRESS) →
      (s.pKeyPressed = false →
        (ProcessKeyboardEvents.toggleP k0
          (ProcessKeyboardEvents.beforeToggleP lib k0
            (PrepareSceneView.timing t0 s))).bOrthographicProjection = false) ∧
      (∀ pre t k post, evs = pre ++ Event.frame t k :: post →
        ProcessKeyboardEvents.toggleP k
          (ProcessKeyboardEvents.beforeToggleP lib k
            (PrepareSceneView.timing t (run lib (PrepareSceneView lib t0 k0 s) pre))) =
        ProcessKeyboardEvents.beforeToggleP lib k
          (PrepareSceneView.timing t (run lib (PrepareSceneView lib t0 k0 s) pre)))) := by
  refine ⟨?_, ?_⟩
  · intro hk0 hall
    refine ⟨fun ho => PrepareSceneView_fresh_O lib t0 k0 s hk0 ho, ?_⟩
    intro pre t k post hevs
    have hk : k.GLFW_KEY_O = KeyState.GLFW_PRESS := hall t k (by rw [hevs]; simp)
    have h1 : (PrepareSceneView lib t0 k0 s).oKeyPressed = true := by
      rw [(PrepareSceneView_flags lib t0 k0 s).1]
      exact toggleO_pressed lib k0 _ hk0
    have h2 : (run lib (PrepareSceneView lib t0 k0 s) pre).oKeyPressed = true :=
      run_oKeyPressed lib pre _ h1 (fun t1 k1 hm => hall t1 k1 (by rw [hevs]; simp [hm]))
    apply toggleO_held lib k _ hk
    rw [beforeToggleO_oKeyPressed]
    exact h2
  · intro hk0 hall
    refine ⟨?_, ?_⟩
    · intro hp
      rw [toggleP_fresh k0 _ hk0 (by rw [beforeToggleP_pKeyPressed]; exact hp)]
    · intro pre t k post hevs
      have hk : k.GLFW_KEY_P = KeyState.GLFW_PRESS := hall t k (by rw [hevs]; simp)
      have h1 : (PrepareSceneView lib t0 k0 s).pKeyPressed = true := by
        rw [(PrepareSceneView_flags lib t0 k0 s).2]
        exact toggleP_pressed k0 _ hk0
      have h2 : (run lib (PrepareSceneView lib t0 k0 s) pre).pKeyPressed = true :=
        run_pKeyPressed lib pre _ h1 (fun t1 k1 hm => hall t1 k1 (by rw [hevs]; simp [hm]))
      apply toggleP_held k _ hk
      rw [beforeToggleP_pKeyPressed]
      exact h2

/-- Witness for C7: on the sample controller, O held over three frames with a
cursor event in between, and likewise P held over two frames. -/
theorem C7_toggle_once_per_press_witness :
    (PrepareSceneView sampleLib 0 onlyO sampleInit).bOrthographicProjection = true ∧
    ProcessKeyboardEvents.toggleO sampleLib onlyO
      (ProcessKeyboardEvents.beforeToggleO sampleLib onlyO
        (PrepareSceneView.timing 2
          (run sampleLib (PrepareSceneView sampleLib 0 onlyO sampleInit)
            [Event.frame 1 onlyO, Event.cursor 5 5]))) =
    ProcessKeyboardEvents.beforeToggleO sampleLib onlyO
      (PrepareSceneView.timing 2
        (run sampleLib (PrepareSceneView sampleLib 0 onlyO sampleInit)
          [Event.frame 1 onlyO, Event.cursor 5 5])) ∧
    ProcessKeyboardEvents.toggleP onlyP
      (ProcessKeyboardEvents.beforeToggleP sampleLib onlyP
        (PrepareSceneView.timing 1
          (run sampleLib (PrepareSceneView sampleLib 0 onlyP sampleOrtho) []))) =
    ProcessKeyboardEvents.beforeToggleP sampleLib onlyP
      (PrepareSceneView.timing 1
        (run sampleLib (PrepareSceneView sampleLib 0 onlyP sampleOrtho) [])) := by
  have h := (C7_toggle_once_per_press sampleLib sampleInit 0 onlyO
    [Event.frame 1 onlyO, Event.cursor 5 5, Event.frame 2 onlyO]).1 rfl (by
      intro t k hm
      simp only [List.mem_cons, Event.frame.injEq, List.mem_singleton, reduceCtorEq,
        false_or, List.mem_nil_iff, or_false] at hm
      rcases hm with ⟨_, rfl⟩ | ⟨_, rfl⟩ <;> rfl)
  have hP := (C7_toggle_once_per_press sampleLib sampleOrtho 0 onlyP
    [Event.frame 1 onlyP]).2 rfl (by
      intro t k hm
      simp only [List.mem_singleton, Event.frame.injEq] at hm
      rw [hm.2]
      rfl)
  exact ⟨(h.1 rfl).1, h.2 [Event.frame 1 onlyO, Event.cursor 5 5] 2 onlyO [] rfl,
    hP.2 [] 1 onlyP [] rfl⟩

/-- Cursor and scroll events leave the two static flags alone, over a sequence. -/
theorem run_flags_of_no_frame (lib : CameraLib) (evs : List Event) :
    ∀ s : State, (∀ e ∈ evs, Event.isFrame e = false) →
      (run lib s evs).oKeyPressed = s.oKeyPressed ∧
      (run lib s evs).pKeyPressed = s.pKeyPressed := by
  induction evs with
  | nil => intro s _; exact ⟨rfl, rfl⟩
  | cons e es ih =>
    intro s hall
    simp only [run, List.foldl_cons]
    have h1 := ih (step lib s e) (fun e1 hm => hall e1 (List.mem_cons_of_mem _ hm))
    have h2 := step_flags_of_not_frame lib s e (hall e (List.mem_cons_self _ _))
    simp only [run] at h1
    exact ⟨h1.1.trans h2.1, h1.2.trans h2.2⟩

/-- A frame that reports O released ends with `oKeyPressed` clear. -/
theorem PrepareSceneView_O_released (lib : CameraLib) (t : ℚ) (k : Keys) (s : State)
    (hk : k.GLFW_KEY_O = KeyState.GLFW_RELEASE) :
    (PrepareSceneView lib t k s).oKeyPressed = false := by
  rw [(PrepareSceneView_flags lib t k s).1, toggleO_released lib k _ hk]

/-- A frame that reports P released ends with `pKeyPressed` clear. -/
theorem PrepareSceneView_P_released (lib : CameraLib) (t : ℚ) (k : Keys) (s : State)
    (hk : k.GLFW_KEY_P = KeyState.GLFW_RELEASE) :
    (PrepareSceneView lib t k s).pKeyPressed = false := by
  rw [(PrepareSceneView_flags lib t k s).2, toggleP_released k _ hk]

/-- A frame in which P is freshly pressed and O is not (O is released, or
still held from an earlier press) ends in Perspective mode. -/
theorem PrepareSceneView_fresh_P (lib : CameraLib) (t : ℚ) (k : Keys) (s : State)
    (hP : k.GLFW_KEY_P = KeyState.GLFW_PRESS)
    (hO : k.GLFW_KEY_O = KeyState.GLFW_RELEASE ∨ s.oKeyPressed = true)
    (hp : s.pKeyPressed = false) :
    (PrepareSceneView lib t k s).bOrthographicProjection = false := by
  have hb : (ProcessKeyboardEvents.beforeToggleP lib k (PrepareSceneView.timing t s)).pKeyPressed
      = false := by
    rw [beforeToggleP_pKeyPressed]
    exact hp
  have hmid : (ProcessKeyboardEvents.beforeToggleO lib k
      (PrepareSceneView.timing t s)).bOrthographicProjection = false := by
    unfold ProcessKeyboardEvents.beforeToggleO
    rw [toggleP_fresh k _ hP hb]
  cases hko : k.GLFW_KEY_O with
  | GLFW_RELEASE =>
    simp only [PrepareSceneView, ProcessKeyboardEvents, toggleO_released lib k _ hko]
    exact hmid
  | GLFW_PRESS =>
    have ho : s.oKeyPressed = true := by
      rcases hO with h | h
      · rw [hko] at h
        cases h
      · exact h
    have ho1 : (ProcessKeyboardEvents.beforeToggleO lib k
        (PrepareSceneView.timing t s)).oKeyPressed = true := by
      rw [beforeToggleO_oKeyPressed]
      exact ho
    simp only [PrepareSceneView, ProcessKeyboardEvents, toggleO_held lib k _ hko ho1]
    exact hmid

/-- With only P pressed, freshly, a frame leaves the camera as it was. -/
theorem PrepareSceneView_onlyP_camera (lib : CameraLib) (t : ℚ) (s : State)
    (hp : s.pKeyPressed = false) :
    (PrepareSceneView lib t onlyP s).camera = s.camera := by
  simp [PrepareSceneView, ProcessKeyboardEvents, ProcessKeyboardEvents.beforeToggleO,
    ProcessKeyboardEvents.beforeToggleP, ProcessKeyboardEvents.movement,
    ProcessKeyboardEvents.move, ProcessKeyboardEvents.escape, ProcessKeyboardEvents.reset,
    ProcessKeyboardEvents.toggleP, ProcessKeyboardEvents.toggleO, onlyP, noKeys,
    PrepareSceneView.timing, hp]

/-- A frame with neither O nor P pressed leaves the mode as it was. -/
theorem PrepareSceneView_mode_unchanged (lib : CameraLib) (t : ℚ) (k : Keys) (s : State)
    (hO : k.GLFW_KEY_O = KeyState.GLFW_RELEASE) (hP : k.GLFW_KEY_P = KeyState.GLFW_RELEASE) :
    (PrepareSceneView lib t k s).bOrthographicProjection = s.bOrthographicProjection := by
  obtain ⟨c, w, h⟩ := beforeToggleP_frame lib k (PrepareSceneView.timing t s)
  simp only [PrepareSceneView, ProcessKeyboardEvents, ProcessKeyboardEvents.beforeToggleO,
    toggleO_released lib k _ hO, toggleP_released k _ hP]
  rw [h]
  simp [PrepareSceneView.timing]

/-! ### C8 -/

/-- C8: the controller starts in Perspective mode.  A frame in which only O
is pressed, coming after a frame that reported O released (cursor and scroll
events may lie between) or as the first key event after construction, ends in
Orthographic mode with position (0,4,10), yaw -90, pitch 0.  A frame in which
only P is pressed, fresh in the same sense, ends in Perspective mode with the
camera (position, yaw, pitch, zoom and derived vectors) exactly as the frame
found it.  A frame in which neither O nor P is pressed leaves the mode as it
was. -/
theorem C8_projection_state_machine (lib : CameraLib) (cam0 : Camera) :
    (init lib cam0).bOrthographicProjection = false ∧
    (∀ (s : State) (tPrev : ℚ) (kPrev : Keys) (mid : List Event) (t : ℚ),
      kPrev.GLFW_KEY_O = KeyState.GLFW_RELEASE → (∀ e ∈ mid, Event.isFrame e = false) →
      (PrepareSceneView lib t onlyO
        (run lib (PrepareSceneView lib tPrev kPrev s) mid)).bOrthographicProjection = true ∧
      (PrepareSceneView lib t onlyO
        (run lib (PrepareSceneView lib tPrev kPrev s) mid)).camera.Position = ⟨0, 4, 10⟩ ∧
      (PrepareSceneView lib t onlyO
        (run lib (PrepareSceneView lib tPrev kPrev s) mid)).camera.Yaw = -90 ∧
      (PrepareSceneView lib t onlyO
        (run lib (PrepareSceneView lib tPrev kPrev s) mid)).camera.Pitch = 0) ∧
    (∀ (mid : List Event) (t : ℚ), (∀ e ∈ mid, Event.isFrame e = false) →
      (PrepareSceneView lib t onlyO
        (run lib (init lib cam0) mid)).bOrthographicProjection = true ∧
      (PrepareSceneView lib t onlyO (run lib (init lib cam0) mid)).camera.Position =
        ⟨0, 4, 10⟩ ∧
      (PrepareSceneView lib t onlyO (run lib (init lib cam0) mid)).camera.Yaw = -90 ∧
      (PrepareSceneView lib t onlyO (run lib (init lib cam0) mid)).camera.Pitch = 0) ∧
    (∀ (s : State) (tPrev : ℚ) (kPrev : Keys) (mid : List Event) (t : ℚ),
      kPrev.GLFW_KEY_P = KeyState.GLFW_RELEASE → (∀ e ∈ mid, Event.isFrame e = false) →
      (PrepareSceneView lib t onlyP
        (run lib (PrepareSceneView lib tPrev kPrev s) mid)).bOrthographicProjection = false ∧
      (PrepareSceneView lib t onlyP
        (run lib (PrepareSceneView lib tPrev kPrev s) mid)).camera =
        (run lib (PrepareSceneView lib tPrev kPrev s) mid).camera) ∧
    (∀ (mid : List Event) (t : ℚ), (∀ e ∈ mid, Event.isFrame e = false) →
      (PrepareSceneView lib t onlyP
        (run lib (init lib cam0) mid)).bOrthographicProjection = false ∧
      (PrepareSceneView lib t onlyP (run lib (init lib cam0) mid)).camera =
        (run lib (init lib cam0) mid).camera) ∧
    (∀ (s : State) (t : ℚ) (k : Keys),
      k.GLFW_KEY_O = KeyState.GLFW_RELEASE → k.GLFW_KEY_P = KeyState.GLFW_RELEASE →
      (PrepareSceneView lib t k s).bOrthographicProjection = s.bOrthographicProjection) := by
  refine ⟨rfl, ?_, ?_, ?_, ?_, ?_⟩
  · intro s tPrev kPrev mid t hk hmid
    apply PrepareSceneView_fresh_O lib t onlyO _ rfl
    rw [(run_flags_of_no_frame lib mid _ hmid).1]
    exact PrepareSceneView_O_released lib tPrev kPrev s hk
  · intro mid t hmid
    apply PrepareSceneView_fresh_O lib t onlyO _ rfl
    rw [(run_flags_of_no_frame lib mid _ hmid).1]
    rfl
  · intro s tPrev kPrev mid t hk hmid
    have hp : (run lib (PrepareSceneView lib tPrev kPrev s) mid).pKeyPressed = false := by
      rw [(run_flags_of_no_frame lib mid _ hmid).2]
      exact PrepareSceneView_P_released lib tPrev kPrev s hk
    exact ⟨PrepareSceneView_fresh_P lib t onlyP _ rfl (Or.inl rfl) hp,
      PrepareSceneView_onlyP_camera lib t _ hp⟩
  · intro mid t hmid
    have hp : (run lib (init lib cam0) mid).pKeyPressed = false := by
      rw [(run_flags_of_no_frame lib mid _ hmid).2]
      rfl
    exact ⟨PrepareSceneView_fresh_P lib t onlyP _ rfl (Or.inl rfl) hp,
      PrepareSceneView_onlyP_camera lib t _ hp⟩
  · intro s t k hO hP
    exact PrepareSceneView_mode_unchanged lib t k s hO hP

/-- Witness for C8: on the sample controller, O then (after releasing) P. -/
theorem C8_projection_state_machine_witness :
    (PrepareSceneView sampleLib 1 onlyO
      (run sampleLib (PrepareSceneView sampleLib 0 noKeys sampleInit)
        [Event.cursor 3 4])).bOrthographicProjection = true ∧
    (PrepareSceneView sampleLib 1 onlyP
      (run sampleLib (PrepareSceneView sampleLib 0 onlyO sampleInit)
        [])).bOrthographicProjection = false := by
  have h := C8_projection_state_machine sampleLib sampleCamera
  refine ⟨(h.2.1 sampleInit 0 noKeys [Event.cursor 3 4] 1 rfl ?_).1,
    (h.2.2.2.1 sampleInit 0 onlyO [] 1 rfl ?_).1⟩
  · intro e he
    simp only [List.mem_singleton] at he
    subst he
    rfl
  · intro e he
    simp at he

/-! ### C9 -/

/-- C9: in Orthographic mode, for every cursor position,
`Mouse_Position_Callback` returns the state it was given: the camera (yaw and
pitch included) is unchanged, no call of the mouse-look handler is added, and
`gLastX`, `gLastY` and `gFirstMouse` are unchanged. -/
theorem C9_ortho_ignores_mouse (lib : CameraLib) (s : State) (xMousePos yMousePos : ℚ)
    (h : s.bOrthographicProjection = true) :
    Mouse_Position_Callback lib xMousePos yMousePos s = s ∧
    (Mouse_Position_Callback lib xMousePos yMousePos s).camera = s.camera ∧
    (Mouse_Position_Callback lib xMousePos yMousePos s).camera.Yaw = s.camera.Yaw ∧
    (Mouse_Position_Callback lib xMousePos yMousePos s).camera.Pitch = s.camera.Pitch ∧
    (Mouse_Position_Callback lib xMousePos yMousePos s).mouseLookCalls = s.mouseLookCalls ∧
    (Mouse_Position_Callback lib xMousePos yMousePos s).gLastX = s.gLastX ∧
    (Mouse_Position_Callback lib xMousePos yMousePos s).gLastY = s.gLastY ∧
    (Mouse_Position_Callback lib xMousePos yMousePos s).gFirstMouse = s.gFirstMouse := by
  have e : Mouse_Position_Callback lib xMousePos yMousePos s = s := by
    simp [Mouse_Position_Callback, h]
  rw [e]
  simp

/-- Witness for C9: a cursor event on the sample controller in Orthographic mode. -/
theorem C9_ortho_ignores_mouse_witness :
    sampleOrtho.bOrthographicProjection = true ∧
    Mouse_Position_Callback sampleLib 640 360 sampleOrtho = sampleOrtho :=
  ⟨rfl, (C9_ortho_ignores_mouse sampleLib sampleOrtho 640 360 rfl).1⟩

/-- A frame never touches the cursor bookkeeping or the mouse-look log. -/
theorem PrepareSceneView_cursor_fields (lib : CameraLib) (t : ℚ) (k : Keys) (s : State) :
    (PrepareSceneView lib t k s).gFirstMouse = s.gFirstMouse ∧
    (PrepareSceneView lib t k s).gLastX = s.gLastX ∧
    (PrepareSceneView lib t k s).gLastY = s.gLastY ∧
    (PrepareSceneView lib t k s).mouseLookCalls = s.mouseLookCalls := by
  obtain ⟨cam, w, b, p, o, h⟩ := PrepareSceneView_frame lib t k s
  rw [h]
  exact ⟨rfl, rfl, rfl, rfl⟩

/-- The first cursor event handled in Perspective mode records the position,
converted to `float`, and calls the mouse-look handler with (0, 0). -/
theorem Mouse_Position_Callback_first (lib : CameraLib) (x y : ℚ) (s : State)
    (hmode : s.bOrthographicProjection = false) (hfirst : s.gFirstMouse = true) :
    Mouse_Position_Callback lib x y s =
      { s with
        gLastX := lib.toFloat x, gLastY := lib.toFloat y, gFirstMouse := false
        camera := lib.ProcessMouseMovement 0 0 s.camera
        mouseLookCalls := s.mouseLookCalls ++ [(0, 0)] } := by
  simp [Mouse_Position_Callback, hmode, hfirst]

/-! ### C10 -/

/-- What the sample controller holds after a cursor event at (16777216, 0)
and a frame with only O pressed. -/
theorem sampleOrthoAfterFarLook_eval :
    sampleOrthoAfterFarLook.gLastX = 16777216 ∧
    sampleOrthoAfterFarLook.gLastY = 0 ∧
    sampleOrthoAfterFarLook.mouseLookCalls = [(0, 0)] := by
  have hm : sampleInit.bOrthographicProjection = false := rfl
  have hf : sampleInit.gFirstMouse = true := rfl
  have hc : sampleInit.mouseLookCalls = [] := rfl
  have e : sampleOrthoAfterFarLook =
      PrepareSceneView sampleLib 0 onlyO
        (Mouse_Position_Callback sampleLib 16777216 0 sampleInit) :=
    rfl
  obtain ⟨_, hx, hy, hcalls⟩ := PrepareSceneView_cursor_fields sampleLib 0 onlyO
    (Mouse_Position_Callback sampleLib 16777216 0 sampleInit)
  rw [e, hx, hy, hcalls, Mouse_Position_Callback_first sampleLib 16777216 0 sampleInit hm hf]
  simp [sampleLib, hc]

/-- C10, as stated, fails, in two ways.  On the sample controller, a first
frame with only O pressed gives a reachable state in Orthographic mode; a
following frame with a fresh press of P switches back to Perspective; the
recorded cursor position is still (500, 400).  The next cursor event, at
(0, 0), differs from it, yet the mouse-look handler is called with (0, 0) and
yaw and pitch stay as they were, because `gFirstMouse` was still set.  And
when a cursor event at (16777216, 0) has been handled before the switch to
Orthographic, so that `gFirstMouse` is clear, the cursor event at
(16777217, 0) that follows the switch back differs from the recorded
(16777216, 0), yet the handler is again called with (0, 0) and yaw and pitch
stay as they were, because both positions convert to the same `float`. -/
theorem C10_counterexample :
    Reachable sampleLib sampleCamera sampleOrtho ∧
    sampleOrtho.bOrthographicProjection = true ∧
    sampleOrtho.pKeyPressed = false ∧
    (PrepareSceneView sampleLib 1 onlyP sampleOrtho).bOrthographicProjection = false ∧
    (PrepareSceneView sampleLib 1 onlyP sampleOrtho).gLastX = 500 ∧
    (PrepareSceneView sampleLib 1 onlyP sampleOrtho).gLastY = 400 ∧
    ((0 : ℚ), (0 : ℚ)) ≠ (500, 400) ∧
    (Mouse_Position_Callback sampleLib 0 0
      (PrepareSceneView sampleLib 1 onlyP sampleOrtho)).mouseLookCalls = [(0, 0)] ∧
    (Mouse_Position_Callback sampleLib 0 0
      (PrepareSceneView sampleLib 1 onlyP sampleOrtho)).camera.Yaw =
      (PrepareSceneView sampleLib 1 onlyP sampleOrtho).camera.Yaw ∧
    (Mouse_Position_Callback sampleLib 0 0
      (PrepareSceneView sampleLib 1 onlyP sampleOrtho)).camera.Pitch =
      (PrepareSceneView sampleLib 1 onlyP sampleOrtho).camera.Pitch ∧
    Reachable sampleLib sampleCamera sampleOrthoAfterFarLook ∧
    sampleOrthoAfterFarLook.bOrthographicProjection = true ∧
    sampleOrthoAfterFarLook.pKeyPressed = false ∧
    sampleOrthoAfterFarLook.gFirstMouse = false ∧
    (PrepareSceneView sampleLib 1 onlyP sampleOrthoAfterFarLook).bOrthographicProjection
      = false ∧
    (PrepareSceneView sampleLib 1 onlyP sampleOrthoAfterFarLook).gLastX = 16777216 ∧
    (PrepareSceneView sampleLib 1 onlyP sampleOrthoAfterFarLook).gLastY = 0 ∧
    ((16777217 : ℚ), (0 : ℚ)) ≠ (16777216, 0) ∧
    (Mouse_Position_Callback sampleLib 16777217 0
      (PrepareSceneView sampleLib 1 onlyP sampleOrthoAfterFarLook)).mouseLookCalls =
      [(0, 0), (0, 0)] ∧
    (Mouse_Position_Callback sampleLib 16777217 0
      (PrepareSceneView sampleLib 1 onlyP sampleOrthoAfterFarLook)).camera.Yaw =
      (PrepareSceneView sampleLib 1 onlyP sampleOrthoAfterFarLook).camera.Yaw ∧
    (Mouse_Position_Callback sampleLib 16777217 0
      (PrepareSceneView sampleLib 1 onlyP sampleOrthoAfterFarLook)).camera.Pitch =
      (PrepareSceneView sampleLib 1 onlyP sampleOrthoAfterFarLook).camera.Pitch := by
  have hp : sampleOrtho.pKeyPressed = false := rfl
  have hf := PrepareSceneView_cursor_fields sampleLib 1 onlyP sampleOrtho
  have hmode : (PrepareSceneView sampleLib 1 onlyP sampleOrtho).bOrthographicProjection
      = false := PrepareSceneView_fresh_P sampleLib 1 onlyP sampleOrtho rfl (Or.inl rfl) hp
  have hfirst : (PrepareSceneView sampleLib 1 onlyP sampleOrtho).gFirstMouse = true := by
    rw [hf.1]
    rfl
  have hcalls : (PrepareSceneView sampleLib 1 onlyP sampleOrtho).mouseLookCalls = [] := by
    rw [hf.2.2.2]
    rfl
  have hp2 : sampleOrthoAfterFarLook.pKeyPressed = false := rfl
  have hfirst2 : sampleOrthoAfterFarLook.gFirstMouse = false := rfl
  have hg := PrepareSceneView_cursor_fields sampleLib 1 onlyP sampleOrthoAfterFarLook
  have hmode2 :
      (PrepareSceneView sampleLib 1 onlyP sampleOrthoAfterFarLook).bOrthographicProjection
        = false :=
    PrepareSceneView_fresh_P sampleLib 1 onlyP sampleOrthoAfterFarLook rfl (Or.inl rfl) hp2
  have hfm2 : (PrepareSceneView sampleLib 1 onlyP sampleOrthoAfterFarLook).gFirstMouse
      = false := by
    rw [hg.1]
    rfl
  have hx2 : (PrepareSceneView sampleLib 1 onlyP sampleOrthoAfterFarLook).gLastX
      = 16777216 := by
    rw [hg.2.1, sampleOrthoAfterFarLook_eval.1]
  have hy2 : (PrepareSceneView sampleLib 1 onlyP sampleOrthoAfterFarLook).gLastY = 0 := by
    rw [hg.2.2.1, sampleOrthoAfterFarLook_eval.2.1]
  have hc2 : (PrepareSceneView sampleLib 1 onlyP sampleOrthoAfterFarLook).mouseLookCalls
      = [(0, 0)] := by
    rw [hg.2.2.2, sampleOrthoAfterFarLook_eval.2.2]
  have hfl : sampleLib.toFloat 16777217 = 16777216 := by simp [sampleLib]
  have hfl0 : sampleLib.toFloat 0 = 0 := by simp [sampleLib]
  refine ⟨⟨[Event.frame 0 onlyO], rfl⟩, rfl, hp, hmode, ?_, ?_, ?_, ?_, ?_, ?_,
    ⟨[Event.cursor 16777216 0, Event.frame 0 onlyO], rfl⟩, rfl, hp2, hfirst2, hmode2, hx2, hy2,
    ?_, ?_, ?_, ?_⟩
  · rw [hf.2.1, sampleOrtho, (PrepareSceneView_cursor_fields sampleLib 0 onlyO sampleInit).2.1]
    norm_num [sampleInit, init, WINDOW_WIDTH]
  · rw [hf.2.2.1, sampleOrtho,
      (PrepareSceneView_cursor_fields sampleLib 0 onlyO sampleInit).2.2.1]
    norm_num [sampleInit, init, WINDOW_HEIGHT]
  · intro h
    have h1 : (0 : ℚ) = 500 := congrArg Prod.fst h
    norm_num at h1
  · rw [Mouse_Position_Callback_first sampleLib 0 0 _ hmode hfirst]
    simp [hcalls]
  · rw [Mouse_Position_Callback_first sampleLib 0 0 _ hmode hfirst]
    simp [sampleLib]
  · rw [Mouse_Position_Callback_first sampleLib 0 0 _ hmode hfirst]
    simp [sampleLib]
  · intro h
    have h1 : (16777217 : ℚ) = 16777216 := congrArg Prod.fst h
    norm_num at h1
  · simp [Mouse_Position_Callback, hmode2, hfm2, hx2, hy2, hc2, hfl, hfl0]
  · simp [Mouse_Position_Callback, hmode2, hfm2, hx2, hy2, hfl, hfl0]
    simp [sampleLib]
  · simp [Mouse_Position_Callback, hmode2, hfm2, hx2, hy2, hfl, hfl0]
    simp [sampleLib]

/-- C10, amended: take any state in which `pKeyPressed` is clear, and a frame
that reports P pressed while O is not freshly pressed (O released, or still
held from an earlier press).  The frame ends in Perspective mode.  Write
(fx, fy) for the position (x, y) of the next cursor event after its conversion
to `float`.  If `gFirstMouse` is already clear (a cursor event has been
handled in Perspective mode before), the next `Mouse_Position_Callback` calls
the mouse-look handler exactly once, with (fx - gLastX, gLastY - fy), and this
pair is non-zero exactly when (fx, fy) differs from the recorded
(gLastX, gLastY).  If `gFirstMouse` is still set, the callback instead calls
the handler with (0, 0) and only records (fx, fy). -/
theorem C10_mouse_look_after_switch_back (lib : CameraLib) (s : State) (t : ℚ) (k : Keys)
    (hP : k.GLFW_KEY_P = KeyState.GLFW_PRESS)
    (hO : k.GLFW_KEY_O = KeyState.GLFW_RELEASE ∨ s.oKeyPressed = true)
    (hp : s.pKeyPressed = false) :
    (PrepareSceneView lib t k s).bOrthographicProjection = false ∧
    (s.gFirstMouse = false → ∀ x y : ℚ,
      (Mouse_Position_Callback lib x y (PrepareSceneView lib t k s)).mouseLookCalls =
        s.mouseLookCalls ++ [(lib.toFloat x - s.gLastX, s.gLastY - lib.toFloat y)] ∧
      ((lib.toFloat x - s.gLastX, s.gLastY - lib.toFloat y) ≠ ((0 : ℚ), (0 : ℚ)) ↔
        (lib.toFloat x, lib.toFloat y) ≠ (s.gLastX, s.gLastY)) ∧
      (Mouse_Position_Callback lib x y (PrepareSceneView lib t k s)).camera =
        lib.ProcessMouseMovement (lib.toFloat x - s.gLastX) (s.gLastY - lib.toFloat y)
          (PrepareSceneView lib t k s).camera) ∧
    (s.gFirstMouse = true → ∀ x y : ℚ,
      (Mouse_Position_Callback lib x y (PrepareSceneView lib t k s)).mouseLookCalls =
        s.mouseLookCalls ++ [((0 : ℚ), (0 : ℚ))] ∧
      (Mouse_Position_Callback lib x y (PrepareSceneView lib t k s)).gLastX = lib.toFloat x ∧
      (Mouse_Position_Callback lib x y (PrepareSceneView lib t k s)).gLastY = lib.toFloat y ∧
      (Mouse_Position_Callback lib x y (PrepareSceneView lib t k s)).gFirstMouse = false) := by
  have hmode := PrepareSceneView_fresh_P lib t k s hP hO hp
  obtain ⟨hfirst, hx, hy, hcalls⟩ := PrepareSceneView_cursor_fields lib t k s
  refine ⟨hmode, ?_, ?_⟩
  · intro hf x y
    have hf1 : (PrepareSceneView lib t k s).gFirstMouse = false := by rw [hfirst, hf]
    refine ⟨?_, ?_, ?_⟩
    · simp [Mouse_Position_Callback, hmode, hf1, hx, hy, hcalls]
    · rw [not_iff_not]
      constructor
      · intro hzero
        have h1 : lib.toFloat x - s.gLastX = 0 := congrArg Prod.fst hzero
        have h2 : s.gLastY - lib.toFloat y = 0 := congrArg Prod.snd hzero
        have e1 : lib.toFloat x = s.gLastX := by linarith
        have e2 : lib.toFloat y = s.gLastY := by linarith
        rw [e1, e2]
      · intro hsame
        have e1 : lib.toFloat x = s.gLastX := congrArg Prod.fst hsame
        have e2 : lib.toFloat y = s.gLastY := congrArg Prod.snd hsame
        rw [e1, e2]
        simp
    · simp [Mouse_Position_Callback, hmode, hf1, hx, hy]
  · intro hf x y
    have hf1 : (PrepareSceneView lib t k s).gFirstMouse = true := by rw [hfirst, hf]
    simp [Mouse_Position_Callback, hmode, hf1, hcalls]

/-- Witness for C10 (amended): the sample controller has handled a cursor
event at (10, 10), was switched to Orthographic, and is switched back by a
fresh press of P; the next cursor event at (20, 30) calls the handler with
(10, -20). -/
theorem C10_mouse_look_after_switch_back_witness :
    Reachable sampleLib sampleCamera sampleOrthoAfterLook ∧
    sampleOrthoAfterLook.bOrthographicProjection = true ∧
    sampleOrthoAfterLook.pKeyPressed = false ∧
    sampleOrthoAfterLook.gFirstMouse = false ∧
    (PrepareSceneView sampleLib 1 onlyP sampleOrthoAfterLook).bOrthographicProjection = false ∧
    (Mouse_Position_Callback sampleLib 20 30
      (PrepareSceneView sampleLib 1 onlyP sampleOrthoAfterLook)).mouseLookCalls =
      [(0, 0), (10, -20)] := by
  have h := C10_mouse_look_after_switch_back sampleLib sampleOrthoAfterLook 1 onlyP rfl
    (Or.inl rfl) rfl
  have hm : sampleInit.bOrthographicProjection = false := rfl
  have hf : sampleInit.gFirstMouse = true := rfl
  have hc0 : sampleInit.mouseLookCalls = [] := rfl
  have e : sampleOrthoAfterLook =
      PrepareSceneView sampleLib 0 onlyO (Mouse_Position_Callback sampleLib 10 10 sampleInit) :=
    rfl
  obtain ⟨_, hx0, hy0, hcalls0⟩ := PrepareSceneView_cursor_fields sampleLib 0 onlyO
    (Mouse_Position_Callback sampleLib 10 10 sampleInit)
  have hx : sampleOrthoAfterLook.gLastX = 10 := by
    rw [e, hx0, Mouse_Position_Callback_first sampleLib 10 10 sampleInit hm hf]
    simp [sampleLib]
  have hy : sampleOrthoAfterLook.gLastY = 10 := by
    rw [e, hy0, Mouse_Position_Callback_first sampleLib 10 10 sampleInit hm hf]
    simp [sampleLib]
  have hc : sampleOrthoAfterLook.mouseLookCalls = [(0, 0)] := by
    rw [e, hcalls0, Mouse_Position_Callback_first sampleLib 10 10 sampleInit hm hf]
    simp [hc0]
  have h2 := (h.2.1 rfl 20 30).1
  have h20 : sampleLib.toFloat 20 = 20 := by simp [sampleLib]
  have h30 : sampleLib.toFloat 30 = 30 := by simp [sampleLib]
  refine ⟨⟨_, rfl⟩, rfl, rfl, rfl, h.1, ?_⟩
  rw [h2, hx, hy, hc, h20, h30]
  norm_num

end ViewManager

/-! ## Properties of the transform composition -/

namespace SceneManager

/-- The matrix `glm::rotate` builds for the X axis. -/
theorem rotate_X {T : Type} [Field T] (trig : glm.Trig T) (h : trig.inversesqrt 1 = 1) (a : T) :
    glm.rotate trig a ⟨1, 0, 0⟩ =
      !![1, 0, 0, 0;
         0, trig.cos a, - trig.sin a, 0;
         0, trig.sin a, trig.cos a, 0;
         0, 0, 0, 1] := by
  simp [glm.rotate, glm.normalize, glm.dot, h]

/-- The matrix `glm::rotate` builds for the Y axis. -/
theorem rotate_Y {T : Type} [Field T] (trig : glm.Trig T) (h : trig.inversesqrt 1 = 1) (a : T) :
    glm.rotate trig a ⟨0, 1, 0⟩ =
      !![trig.cos a, 0, trig.sin a, 0;
         0, 1, 0, 0;
         - trig.sin a, 0, trig.cos a, 0;
         0, 0, 0, 1] := by
  simp [glm.rotate, glm.normalize, glm.dot, h]

/-- The matrix `glm::rotate` builds for the Z axis. -/
theorem rotate_Z {T : Type} [Field T] (trig : glm.Trig T) (h : trig.inversesqrt 1 = 1) (a : T) :
    glm.rotate trig a ⟨0, 0, 1⟩ =
      !![trig.cos a, - trig.sin a, 0, 0;
         trig.sin a, trig.cos a, 0, 0;
         0, 0, 1, 0;
         0, 0, 0, 1] := by
  simp [glm.rotate, glm.normalize, glm.dot, h]

/-- The image of a point, written out in the entries of the matrix. -/
theorem transformPoint_entries {T : Type} [Field T] (m : glm.mat4 T) (p : glm.tvec3 T) :
    glm.transformPoint m p =
      { x := m 0 0 * p.x + m 0 1 * p.y + m 0 2 * p.z + m 0 3
        y := m 1 0 * p.x + m 1 1 * p.y + m 1 2 * p.z + m 1 3
        z := m 2 0 * p.x + m 2 1 * p.y + m 2 2 * p.z + m 2 3 } := by
  simp [glm.transformPoint, Matrix.mulVec, Matrix.dotProduct, Fin.sum_univ_four]

/-- Under a product whose right factor has last row (0, 0, 0, 1), a point is
mapped by the right factor first and by the left factor second. -/
theorem transformPoint_mul {T : Type} [Field T] (a b : glm.mat4 T) (p : glm.tvec3 T)
    (h0 : b 3 0 = 0) (h1 : b 3 1 = 0) (h2 : b 3 2 = 0) (h3 : b 3 3 = 1) :
    glm.transformPoint (a * b) p = glm.transformPoint a (glm.transformPoint b p) := by
  simp only [transformPoint_entries, Matrix.mul_apply, Fin.sum_univ_four, h0, h1, h2, h3]
  congr 1 <;> ring

/-- The scale matrix scales a point componentwise. -/
theorem transformPoint_scale {T : Type} [Field T] (k p : glm.tvec3 T) :
    glm.transformPoint (glm.scale k) p = glm.scalePoint k p := by
  rw [transformPoint_entries]
  show ({ x := k.x * p.x + 0 * p.y + 0 * p.z + 0
          y := 0 * p.x + k.y * p.y + 0 * p.z + 0
          z := 0 * p.x + 0 * p.y + k.z * p.z + 0 } : glm.tvec3 T) = _
  simp [glm.scalePoint]

/-- The translation matrix translates a point. -/
theorem transformPoint_translate {T : Type} [Field T] (t p : glm.tvec3 T) :
    glm.transformPoint (glm.translate t) p = glm.translatePoint t p := by
  rw [transformPoint_entries]
  show ({ x := 1 * p.x + 0 * p.y + 0 * p.z + t.x
          y := 0 * p.x + 1 * p.y + 0 * p.z + t.y
          z := 0 * p.x + 0 * p.y + 1 * p.z + t.z } : glm.tvec3 T) = _
  simp [glm.translatePoint]

/-- The X rotation matrix rotates a point about the world X axis. -/
theorem transformPoint_rotate_X {T : Type} [Field T] (trig : glm.Trig T)
    (h : trig.inversesqrt 1 = 1) (degrees : T) (p : glm.tvec3 T) :
    glm.transformPoint (glm.rotate trig (glm.radians trig degrees) ⟨1, 0, 0⟩) p =
      glm.rotateAboutX trig degrees p := by
  rw [transformPoint_entries, rotate_X trig h]
  show ({ x := 1 * p.x + 0 * p.y + 0 * p.z + 0
          y := 0 * p.x + trig.cos (glm.radians trig degrees) * p.y +
            -trig.sin (glm.radians trig degrees) * p.z + 0
          z := 0 * p.x + trig.sin (glm.radians trig degrees) * p.y +
            trig.cos (glm.radians trig degrees) * p.z + 0 } : glm.tvec3 T) = _
  simp only [glm.rotateAboutX, glm.tvec3.mk.injEq]
  refine ⟨?_, ?_, ?_⟩ <;> ring

/-- The Y rotation matrix rotates a point about the world Y axis. -/
theorem transformPoint_rotate_Y {T : Type} [Field T] (trig : glm.Trig T)
    (h : trig.inversesqrt 1 = 1) (degrees : T) (p : glm.tvec3 T) :
    glm.transformPoint (glm.rotate trig (glm.radians trig degrees) ⟨0, 1, 0⟩) p =
      glm.rotateAboutY trig degrees p := by
  rw [transformPoint_entries, rotate_Y trig h]
  show ({ x := trig.cos (glm.radians trig degrees) * p.x + 0 * p.y +
            trig.sin (glm.radians trig degrees) * p.z + 0
          y := 0 * p.x + 1 * p.y + 0 * p.z + 0
          z := -trig.sin (glm.radians trig degrees) * p.x + 0 * p.y +
            trig.cos (glm.radians trig degrees) * p.z + 0 } : glm.tvec3 T) = _
  simp only [glm.rotateAboutY, glm.tvec3.mk.injEq]
  refine ⟨?_, ?_, ?_⟩ <;> ring

/-- The Z rotation matrix rotates a point about the world Z axis. -/
theorem transformPoint_rotate_Z {T : Type} [Field T] (trig : glm.Trig T)
    (h : trig.inversesqrt 1 = 1) (degrees : T) (p : glm.tvec3 T) :
    glm.transformPoint (glm.rotate trig (glm.radians trig degrees) ⟨0, 0, 1⟩) p =
      glm.rotateAboutZ trig degrees p := by
  rw [transformPoint_entries, rotate_Z trig h]
  show ({ x := trig.cos (glm.radians trig degrees) * p.x +
            -trig.sin (glm.radians trig degrees) * p.y + 0 * p.z + 0
          y := trig.sin (glm.radians trig degrees) * p.x +
            trig.cos (glm.radians trig degrees) * p.y + 0 * p.z + 0
          z := 0 * p.x + 0 * p.y + 1 * p.z + 0 } : glm.tvec3 T) = _
  simp only [glm.rotateAboutZ, glm.tvec3.mk.injEq]
  refine ⟨?_, ?_, ?_⟩ <;> ring

/-- The last row of a rotation matrix is (0, 0, 0, 1). -/
theorem rotate_last_row {T : Type} [Field T] (trig : glm.Trig T) (a : T) (v : glm.tvec3 T) :
    glm.rotate trig a v 3 0 = 0 ∧ glm.rotate trig a v 3 1 = 0 ∧
    glm.rotate trig a v 3 2 = 0 ∧ glm.rotate trig a v 3 3 = 1 :=
  ⟨rfl, rfl, rfl, rfl⟩

/-- The composed matrix maps a point by scale, then the Z, Y and X rotations,
then the translation. -/
theorem modelView_transformPoint {T : Type} [Field T] (trig : glm.Trig T)
    (h : trig.inversesqrt 1 = 1) (scaleXYZ : glm.tvec3 T) (X Y Z : T)
    (positionXYZ p : glm.tvec3 T) :
    glm.transformPoint (SetTransformations.modelView trig scaleXYZ X Y Z positionXYZ) p =
      SetTransformations.pointOrderZYX trig scaleXYZ X Y Z positionXYZ p := by
  simp only [SetTransformations.modelView, SetTransformations.pointOrderZYX]
  rw [transformPoint_mul _ (glm.scale scaleXYZ) p rfl rfl rfl rfl]
  rw [transformPoint_mul _ _ _ (rotate_last_row trig _ _).1 (rotate_last_row trig _ _).2.1
    (rotate_last_row trig _ _).2.2.1 (rotate_last_row trig _ _).2.2.2]
  rw [transformPoint_mul _ _ _ (rotate_last_row trig _ _).1 (rotate_last_row trig _ _).2.1
    (rotate_last_row trig _ _).2.2.1 (rotate_last_row trig _ _).2.2.2]
  rw [transformPoint_mul _ _ _ (rotate_last_row trig _ _).1 (rotate_last_row trig _ _).2.1
    (rotate_last_row trig _ _).2.2.1 (rotate_last_row trig _ _).2.2.2]
  rw [transformPoint_scale, transformPoint_rotate_Z trig h, transformPoint_rotate_Y trig h,
    transformPoint_rotate_X trig h, transformPoint_translate]


/-- Over the reals, 90 degrees are pi / 2 radians. -/
theorem real_radians_90 :
    glm.radians ({ cos := Real.cos, sin := Real.sin,
                   inversesqrt := fun x => (Real.sqrt x)⁻¹, pi := Real.pi } : glm.Trig ℝ) 90 = Real.pi / 2 := by
  simp only [glm.radians]
  ring

/-- Over the reals, 0 degrees are 0 radians. -/
theorem real_radians_0 :
    glm.radians ({ cos := Real.cos, sin := Real.sin,
                   inversesqrt := fun x => (Real.sqrt x)⁻¹, pi := Real.pi } : glm.Trig ℝ) 0 = 0 := by
  simp [glm.radians]

/-! ### C11 -/

/-- C11, as stated, fails.  Over the reals, with scale (1,1,1), angles
(90, 90, 0) degrees and no translation, the composed model matrix maps the
point (1,0,0) to (0,1,0), whereas scaling, then rotating about X, then about
Y, then about Z, then translating gives (0,0,-1). -/
theorem C11_counterexample :
    glm.transformPoint
      (SetTransformations.modelView
        ({ cos := Real.cos, sin := Real.sin,
           inversesqrt := fun x => (Real.sqrt x)⁻¹, pi := Real.pi } : glm.Trig ℝ)
        ⟨1, 1, 1⟩ 90 90 0 ⟨0, 0, 0⟩) ⟨1, 0, 0⟩ = ⟨0, 1, 0⟩ ∧
    SetTransformations.pointOrderXYZ
      ({ cos := Real.cos, sin := Real.sin,
         inversesqrt := fun x => (Real.sqrt x)⁻¹, pi := Real.pi } : glm.Trig ℝ)
      ⟨1, 1, 1⟩ 90 90 0 ⟨0, 0, 0⟩ ⟨1, 0, 0⟩ = ⟨0, 0, -1⟩ ∧
    (⟨0, 1, 0⟩ : glm.tvec3 ℝ) ≠ ⟨0, 0, -1⟩ := by
  refine ⟨?_, ?_, ?_⟩
  · rw [modelView_transformPoint _ (by simp)]
    simp only [SetTransformations.pointOrderZYX, glm.translatePoint, glm.rotateAboutX,
      glm.rotateAboutY, glm.rotateAboutZ, glm.scalePoint, real_radians_90, real_radians_0]
    simp
  · simp only [SetTransformations.pointOrderXYZ, glm.translatePoint, glm.rotateAboutX,
      glm.rotateAboutY, glm.rotateAboutZ, glm.scalePoint, real_radians_90, real_radians_0]
    simp
  · simp

/-- C11, amended: for every scale, angles and translation, over any field of
scalars whose inverse square root of 1 is 1, `SetTransformations` uploads the
composed matrix as the uniform "model", and this matrix maps every point `p`
to the point obtained by scaling `p` componentwise, then rotating it about the
world Z axis by the Z angle, then about the world Y axis by the Y angle, then
about the world X axis by the X angle, then translating it. -/
theorem C11_model_matrix_point_order {T : Type} [Field T] (trig : glm.Trig T)
    (h : trig.inversesqrt 1 = 1) (scaleXYZ : glm.tvec3 T) (X Y Z : T)
    (positionXYZ : glm.tvec3 T) :
    SetTransformations trig true scaleXYZ X Y Z positionXYZ =
      [OpenGL.Cmd.uniform "model"
        (OpenGL.Value.mat4 (SetTransformations.modelView trig scaleXYZ X Y Z positionXYZ))] ∧
    ∀ p : glm.tvec3 T,
      glm.transformPoint (SetTransformations.modelView trig scaleXYZ X Y Z positionXYZ) p =
        glm.translatePoint positionXYZ
          (glm.rotateAboutX trig X
            (glm.rotateAboutY trig Y
              (glm.rotateAboutZ trig Z
                (glm.scalePoint scaleXYZ p)))) := by
  refine ⟨rfl, ?_⟩
  intro p
  rw [modelView_transformPoint trig h]
  rfl

/-- Witness for C11 (amended), over the reals: scale 2, angles (90, 90, 0),
translation (0,0,5) map (1,0,0) to (0,2,5). -/
theorem C11_model_matrix_point_order_witness :
    (fun x : ℝ => (Real.sqrt x)⁻¹) 1 = 1 ∧
    glm.transformPoint
      (SetTransformations.modelView
        ({ cos := Real.cos, sin := Real.sin,
           inversesqrt := fun x => (Real.sqrt x)⁻¹, pi := Real.pi } : glm.Trig ℝ)
        ⟨2, 2, 2⟩ 90 90 0 ⟨0, 0, 5⟩) ⟨1, 0, 0⟩ = ⟨0, 2, 5⟩ := by
  have hs : (fun x : ℝ => (Real.sqrt x)⁻¹) 1 = 1 := by simp
  refine ⟨hs, ?_⟩
  rw [(C11_model_matrix_point_order
    ({ cos := Real.cos, sin := Real.sin,
       inversesqrt := fun x => (Real.sqrt x)⁻¹, pi := Real.pi } : glm.Trig ℝ) hs ⟨2, 2, 2⟩ 90 90 0 ⟨0, 0, 5⟩).2]
  simp only [glm.translatePoint, glm.rotateAboutX,
    glm.rotateAboutY, glm.rotateAboutZ, glm.scalePoint, real_radians_90, real_radians_0]
  simp


/-- The identity matrix written out. -/
theorem identity_literal {T : Type} [Field T] :
    (!![1, 0, 0, 0;
        0, 1, 0, 0;
        0, 0, 1, 0;
        0, 0, 0, 1] : glm.mat4 T) = 1 := by
  ext i j
  fin_cases i <;> fin_cases j <;> rfl

/-- With unit scale and zero angles the composed matrix is the translation matrix. -/
theorem modelView_identity_rotation {T : Type} [Field T] (trig : glm.Trig T)
    (hcos : trig.cos 0 = 1) (hsin : trig.sin 0 = 0) (hsqrt : trig.inversesqrt 1 = 1)
    (positionXYZ : glm.tvec3 T) :
    SetTransformations.modelView trig ⟨1, 1, 1⟩ 0 0 0 positionXYZ =
      !![1, 0, 0, positionXYZ.x;
         0, 1, 0, positionXYZ.y;
         0, 0, 1, positionXYZ.z;
         0, 0, 0, 1] := by
  have hr : glm.radians trig 0 = 0 := by simp [glm.radians]
  simp only [SetTransformations.modelView, rotate_X trig hsqrt, rotate_Y trig hsqrt,
    rotate_Z trig hsqrt, hr, hcos, hsin, neg_zero, glm.scale, glm.translate, identity_literal,
    mul_one]

/-! ### C12 -/

/-- C12: for every translation (tx,ty,tz), over any field of scalars on which
cos 0 = 1, sin 0 = 0 and the inverse square root of 1 is 1, `SetTransformations`
with scale (1,1,1) and angles (0,0,0) uploads as the uniform "model" exactly
the identity with (tx,ty,tz) in the fourth column, and this matrix maps every
point p to p + (tx,ty,tz). -/
theorem C12_identity_scale_zero_rotation {T : Type} [Field T] (trig : glm.Trig T)
    (hcos : trig.cos 0 = 1) (hsin : trig.sin 0 = 0) (hsqrt : trig.inversesqrt 1 = 1)
    (tx ty tz : T) :
    SetTransformations trig true ⟨1, 1, 1⟩ 0 0 0 ⟨tx, ty, tz⟩ =
      [OpenGL.Cmd.uniform "model"
        (OpenGL.Value.mat4
          !![1, 0, 0, tx;
             0, 1, 0, ty;
             0, 0, 1, tz;
             0, 0, 0, 1])] ∧
    ∀ p : glm.tvec3 T,
      glm.transformPoint (SetTransformations.modelView trig ⟨1, 1, 1⟩ 0 0 0 ⟨tx, ty, tz⟩) p =
        ⟨p.x + tx, p.y + ty, p.z + tz⟩ := by
  have hm := modelView_identity_rotation trig hcos hsin hsqrt ⟨tx, ty, tz⟩
  refine ⟨?_, ?_⟩
  · simp only [SetTransformations, ShaderManager.setMat4Value, hm, if_true]
  · intro p
    rw [hm]
    exact transformPoint_translate ⟨tx, ty, tz⟩ p

/-- Witness for C12, over the reals with the real cosine, sine and square root. -/
theorem C12_identity_scale_zero_rotation_witness :
    Real.cos 0 = 1 ∧ Real.sin 0 = 0 ∧ (Real.sqrt 1)⁻¹ = 1 ∧
    glm.transformPoint
      (SetTransformations.modelView
        ({ cos := Real.cos, sin := Real.sin,
           inversesqrt := fun x => (Real.sqrt x)⁻¹, pi := Real.pi } : glm.Trig ℝ)
        ⟨1, 1, 1⟩ 0 0 0 ⟨3, 4, 5⟩) ⟨1, 1, 1⟩ = ⟨1 + 3, 1 + 4, 1 + 5⟩ :=
  ⟨Real.cos_zero, Real.sin_zero, by simp,
    (C12_identity_scale_zero_rotation
      ({ cos := Real.cos, sin := Real.sin,
         inversesqrt := fun x => (Real.sqrt x)⁻¹, pi := Real.pi } : glm.Trig ℝ)
      Real.cos_zero Real.sin_zero (by simp) 3 4 5).2 ⟨1, 1, 1⟩⟩

/-! ### C13 -/

/-- C13: over the reals, with scale (1,1,1), translation (0,0,0) and angles
(0, 90, 0) degrees, the composed model matrix maps (1,0,0) to (0,0,-1) and
leaves (0,1,0) fixed. -/
theorem C13_quarter_turn_about_Y :
    glm.transformPoint
      (SetTransformations.modelView
        ({ cos := Real.cos, sin := Real.sin,
           inversesqrt := fun x => (Real.sqrt x)⁻¹, pi := Real.pi } : glm.Trig ℝ)
        ⟨1, 1, 1⟩ 0 90 0 ⟨0, 0, 0⟩) ⟨1, 0, 0⟩ = ⟨0, 0, -1⟩ ∧
    glm.transformPoint
      (SetTransformations.modelView
        ({ cos := Real.cos, sin := Real.sin,
           inversesqrt := fun x => (Real.sqrt x)⁻¹, pi := Real.pi } : glm.Trig ℝ)
        ⟨1, 1, 1⟩ 0 90 0 ⟨0, 0, 0⟩) ⟨0, 1, 0⟩ = ⟨0, 1, 0⟩ := by
  refine ⟨?_, ?_⟩
  · rw [modelView_transformPoint _ (by simp)]
    simp only [SetTransformations.pointOrderZYX, glm.translatePoint, glm.rotateAboutX,
      glm.rotateAboutY, glm.rotateAboutZ, glm.scalePoint, real_radians_90, real_radians_0]
    simp
  · rw [modelView_transformPoint _ (by simp)]
    simp only [SetTransformations.pointOrderZYX, glm.translatePoint, glm.rotateAboutX,
      glm.rotateAboutY, glm.rotateAboutZ, glm.scalePoint, real_radians_90, real_radians_0]
    simp

end SceneManager

/-! ## Properties of scene preparation and rendering -/

namespace SceneManager

/-- Commands that neither draw nor write the uniform `name` are invisible to `atDraws`. -/
theorem atDraws_skip {T : Type} (name : String) (seg : List (OpenGL.Cmd T))
    (h : ∀ c ∈ seg, ∃ n v, c = OpenGL.Cmd.uniform n v ∧ n ≠ name) :
    ∀ (cur : Option (OpenGL.Value T)) (rest : List (OpenGL.Cmd T)),
      OpenGL.atDraws name cur (seg ++ rest) = OpenGL.atDraws name cur rest := by
  induction seg with
  | nil => intro cur rest; rfl
  | cons c cs ih =>
    intro cur rest
    obtain ⟨n, v, hc, hn⟩ := h c (List.mem_cons_self _ _)
    subst hc
    simp only [List.cons_append, OpenGL.atDraws, hn, if_false]
    exact ih (fun c1 hc1 => h c1 (List.mem_cons_of_mem _ hc1)) cur rest

/-- Commands that neither draw nor write the uniform `name` are invisible to `flagEvents`. -/
theorem flagEvents_skip {T : Type} (name : String) (seg : List (OpenGL.Cmd T))
    (h : ∀ c ∈ seg, ∃ n v, c = OpenGL.Cmd.uniform n v ∧ n ≠ name) :
    ∀ (rest : List (OpenGL.Cmd T)),
      OpenGL.flagEvents name (seg ++ rest) = OpenGL.flagEvents name rest := by
  induction seg with
  | nil => intro rest; rfl
  | cons c cs ih =>
    intro rest
    obtain ⟨n, v, hc, hn⟩ := h c (List.mem_cons_self _ _)
    subst hc
    simp only [List.cons_append, OpenGL.flagEvents, hn, if_false]
    exact ih (fun c1 hc1 => h c1 (List.mem_cons_of_mem _ hc1)) rest

/-- Commands that do not write the uniform `name` leave its value. -/
theorem uniformAfter_skip {T : Type} (name : String) (seg : List (OpenGL.Cmd T))
    (h : ∀ c ∈ seg, ∃ n v, c = OpenGL.Cmd.uniform n v ∧ n ≠ name) :
    ∀ (cur : Option (OpenGL.Value T)) (rest : List (OpenGL.Cmd T)),
      OpenGL.uniformAfter name cur (seg ++ rest) = OpenGL.uniformAfter name cur rest := by
  induction seg with
  | nil => intro cur rest; rfl
  | cons c cs ih =>
    intro cur rest
    obtain ⟨n, v, hc, hn⟩ := h c (List.mem_cons_self _ _)
    subst hc
    simp only [List.cons_append, OpenGL.uniformAfter, hn, if_false]
    exact ih (fun c1 hc1 => h c1 (List.mem_cons_of_mem _ hc1)) cur rest

/-- Every command of `SetShaderMaterial` writes a uniform of the material block. -/
theorem SetShaderMaterial_writes (s : State) (material : OBJECT_MATERIAL) (tag : String) :
    ∀ c ∈ SetShaderMaterial s material tag, ∃ n v, c = OpenGL.Cmd.uniform n v ∧
      n ≠ "bUseTexture" ∧ n ≠ "UVscale" ∧ n ≠ "viewPosition" := by
  intro c hc
  simp only [SetShaderMaterial] at hc
  by_cases h1 : s.m_objectMaterials.length > 0
  · by_cases h2 : (FindMaterial s tag material).1 = true
    · simp only [h1, h2, if_true, ShaderManager.setVec3Value, ShaderManager.setFloatValue,
        List.mem_cons, List.mem_singleton, List.mem_nil_iff, or_false] at hc
      rcases hc with h | h | h | h | h <;> subst h <;>
        exact ⟨_, _, rfl, by decide, by decide, by decide⟩
    · simp [h1, h2] at hc
  · simp [h1] at hc


/-! ### C14 -/

/-- C14: for every scene state (texture registry, material table) and every
render environment, `RenderScene` issues eight draw calls: the floor plane
with `bUseTexture` true, the drone body and camera box with `bUseTexture`
true, and the camera lens and the four arms (the parts coloured through
`SetShaderColor`) with `bUseTexture` false; `UVscale` is (4, 4) at the floor
draw; in the sequence of writes of `bUseTexture` and draw calls every draw is
directly followed by a write of false; and `bUseTexture` is false when
`RenderScene` ends. -/
theorem C14_texture_flag_per_draw (env : RenderEnv) (s : State) :
    OpenGL.flagAtDraws "bUseTexture" (RenderScene env s) =
      [(OpenGL.Mesh.plane, some true), (OpenGL.Mesh.box, some true), (OpenGL.Mesh.box, some true),
       (OpenGL.Mesh.cylinder, some false), (OpenGL.Mesh.box, some false),
       (OpenGL.Mesh.box, some false), (OpenGL.Mesh.box, some false),
       (OpenGL.Mesh.box, some false)] ∧
    (OpenGL.atDraws "UVscale" none (RenderScene env s)).head? =
      some (OpenGL.Mesh.plane, some (OpenGL.Value.vec2 4 4)) ∧
    OpenGL.flagEvents "bUseTexture" (RenderScene env s) =
      [OpenGL.FlagEvent.write (some true), OpenGL.FlagEvent.draw OpenGL.Mesh.plane,
       OpenGL.FlagEvent.write (some false),
       OpenGL.FlagEvent.write (some true), OpenGL.FlagEvent.draw OpenGL.Mesh.box,
       OpenGL.FlagEvent.write (some false),
       OpenGL.FlagEvent.write (some true), OpenGL.FlagEvent.draw OpenGL.Mesh.box,
       OpenGL.FlagEvent.write (some false),
       OpenGL.FlagEvent.write (some false), OpenGL.FlagEvent.write (some false),
       OpenGL.FlagEvent.draw OpenGL.Mesh.cylinder, OpenGL.FlagEvent.write (some false),
       OpenGL.FlagEvent.write (some false), OpenGL.FlagEvent.write (some false),
       OpenGL.FlagEvent.draw OpenGL.Mesh.box, OpenGL.FlagEvent.write (some false),
       OpenGL.FlagEvent.write (some false), OpenGL.FlagEvent.write (some false),
       OpenGL.FlagEvent.draw OpenGL.Mesh.box, OpenGL.FlagEvent.write (some false),
       OpenGL.FlagEvent.write (some false), OpenGL.FlagEvent.write (some false),
       OpenGL.FlagEvent.draw OpenGL.Mesh.box, OpenGL.FlagEvent.write (some false),
       OpenGL.FlagEvent.write (some false), OpenGL.FlagEvent.write (some false),
       OpenGL.FlagEvent.draw OpenGL.Mesh.box, OpenGL.FlagEvent.write (some false)] ∧
    (OpenGL.uniformAfter "bUseTexture" none (RenderScene env s)).bind OpenGL.Value.truth =
      some false := by
  have hM := SetShaderMaterial_writes s env.material "default"
  have h1 := atDraws_skip "bUseTexture" _ (fun c hc =>
    (hM c hc).imp fun n h => h.imp fun v h => ⟨h.1, h.2.1⟩)
  have h2 := atDraws_skip "UVscale" _ (fun c hc =>
    (hM c hc).imp fun n h => h.imp fun v h => ⟨h.1, h.2.2.1⟩)
  have h3 := flagEvents_skip "bUseTexture" _ (fun c hc =>
    (hM c hc).imp fun n h => h.imp fun v h => ⟨h.1, h.2.1⟩)
  have h4 := uniformAfter_skip "bUseTexture" _ (fun c hc =>
    (hM c hc).imp fun n h => h.imp fun v h => ⟨h.1, h.2.1⟩)
  refine ⟨?_, ?_, ?_, ?_⟩
  · simp [OpenGL.flagAtDraws, RenderScene, RenderScene.floor, RenderDrone, RenderDrone.body,
      RenderDrone.cameraBox, RenderDrone.cameraLens, RenderDrone.arm, SetTransformations,
      SetShaderColor, SetTextureUVScale, ShaderManager.setBoolValue, ShaderManager.setIntValue,
      ShaderManager.setVec2Value, ShaderManager.setVec3Value, ShaderManager.setVec4Value,
      ShaderManager.setMat4Value, OpenGL.atDraws, h1, OpenGL.Value.truth]
  · simp [RenderScene, RenderScene.floor, RenderDrone, RenderDrone.body,
      RenderDrone.cameraBox, RenderDrone.cameraLens, RenderDrone.arm, SetTransformations,
      SetShaderColor, SetTextureUVScale, ShaderManager.setBoolValue, ShaderManager.setIntValue,
      ShaderManager.setVec2Value, ShaderManager.setVec3Value, ShaderManager.setVec4Value,
      ShaderManager.setMat4Value, OpenGL.atDraws, h2]
  · simp [RenderScene, RenderScene.floor, RenderDrone, RenderDrone.body,
      RenderDrone.cameraBox, RenderDrone.cameraLens, RenderDrone.arm, SetTransformations,
      SetShaderColor, SetTextureUVScale, ShaderManager.setBoolValue, ShaderManager.setIntValue,
      ShaderManager.setVec2Value, ShaderManager.setVec3Value, ShaderManager.setVec4Value,
      ShaderManager.setMat4Value, OpenGL.flagEvents, h3, OpenGL.Value.truth]
  · simp [RenderScene, RenderScene.floor, RenderDrone, RenderDrone.body,
      RenderDrone.cameraBox, RenderDrone.cameraLens, RenderDrone.arm, SetTransformations,
      SetShaderColor, SetTextureUVScale, ShaderManager.setBoolValue, ShaderManager.setIntValue,
      ShaderManager.setVec2Value, ShaderManager.setVec3Value, ShaderManager.setVec4Value,
      ShaderManager.setMat4Value, OpenGL.uniformAfter, h4, OpenGL.Value.truth]

/-- The material `FindMaterial` hands back is the caller's record overwritten
by the first table entry with the tag, if there is one. -/
theorem FindMaterial_loop_find (s : State) (tag : String) :
    ∀ (k : Nat) (st : MaterialLoop), st.bFound = false →
      st.index + k = s.m_objectMaterials.length →
      (FindMaterial.loop s tag st).material =
        match (s.m_objectMaterials.drop st.index).find? (fun m => decide (m.tag = tag)) with
        | some e =>
          { ambientStrength := e.ambientStrength
            ambientColor := e.ambientColor
            diffuseColor := e.diffuseColor
            specularColor := e.specularColor
            shininess := e.shininess
            tag := st.material.tag }
        | none => st.material := by
  intro k
  induction k with
  | zero =>
    intro st hb hk
    rw [FindMaterial.loop]
    have hlt : ¬ st.index < s.m_objectMaterials.length := by omega
    have hd : s.m_objectMaterials.drop st.index = [] := List.drop_eq_nil_of_le (by omega)
    simp [hlt, hd]
  | succ k ih =>
    intro st hb hk
    have hlt : st.index < s.m_objectMaterials.length := by omega
    have hd : s.m_objectMaterials.drop st.index =
        s.m_objectMaterials[st.index] :: s.m_objectMaterials.drop (st.index + 1) :=
      List.drop_eq_getElem_cons hlt
    rw [FindMaterial.loop]
    by_cases ht : s.m_objectMaterials[st.index].tag = tag
    · simp only [hlt, hb, and_self, dite_true, ht, if_true]
      have hdec : decide (s.m_objectMaterials[st.index].tag = tag) = true := by simp [ht]
      rw [hd, List.find?_cons, hdec, FindMaterial.loop]
      simp only [Bool.true_eq_false, and_false, dite_false, ht]
    · simp only [hlt, hb, and_self, dite_true, ht, if_false]
      have hdec : decide (s.m_objectMaterials[st.index].tag = tag) = false := by simp [ht]
      rw [ih _ rfl (by simp only; omega), hd, List.find?_cons, hdec]


/-- The boolean result of `CreateGLTexture` depends on the decode result only. -/
theorem CreateGLTexture_result (s : State) (image : Option StbImage) (textureID : Nat)
    (tag : String) :
    (CreateGLTexture image textureID tag s).1 = CreateGLTexture.supported image := by
  cases image with
  | none => rfl
  | some img =>
    by_cases h3 : img.colorChannels = 3
    · simp [CreateGLTexture, CreateGLTexture.supported, h3]
    · by_cases h4 : img.colorChannels = 4
      · simp [CreateGLTexture, CreateGLTexture.supported, h4]
      · simp [CreateGLTexture, CreateGLTexture.supported, h3, h4]

/-- The state a call of `CreateGLTexture` leaves, by its result. -/
theorem CreateGLTexture_state (s : State) (image : Option StbImage) (textureID : Nat)
    (tag : String) :
    (CreateGLTexture image textureID tag s).2 =
      if CreateGLTexture.supported image = true then
        { s with
          m_textureIDs := Function.update s.m_textureIDs s.m_loadedTextures
            { tag := tag, ID := textureID % 4294967296 }
          m_loadedTextures := s.m_loadedTextures + 1 }
      else s := by
  cases image with
  | none => rfl
  | some img =>
    by_cases h3 : img.colorChannels = 3
    · simp [CreateGLTexture, CreateGLTexture.supported, h3]
    · by_cases h4 : img.colorChannels = 4
      · simp [CreateGLTexture, CreateGLTexture.supported, h4]
      · simp [CreateGLTexture, CreateGLTexture.supported, h3, h4]

/-- A tag is unregistered exactly when it is not among the registered tags. -/
theorem Unregistered_iff_not_mem (s : State) (tag : String) :
    Unregistered s tag ↔ tag ∉ registeredTags s := by
  simp only [Unregistered, registeredTags, List.mem_map, List.mem_range, not_exists, not_and]

/-- The registered tags after a call of `CreateGLTexture`. -/
theorem CreateGLTexture_registeredTags (s : State) (image : Option StbImage) (textureID : Nat)
    (tag : String) :
    registeredTags (CreateGLTexture image textureID tag s).2 =
      registeredTags s ++ (if CreateGLTexture.supported image = true then [tag] else []) := by
  rw [CreateGLTexture_state]
  by_cases h : CreateGLTexture.supported image = true
  · simp only [h, if_true, registeredTags, List.range_succ, List.map_append, List.map_cons,
      List.map_nil, Function.update_same]
    congr 1
    apply List.map_congr_left
    intro i hi
    have hne : i ≠ s.m_loadedTextures := by
      have := List.mem_range.mp hi
      omega
    rw [Function.update_noteq hne]
  · simp [h]

/-- One load statement of `PrepareScene`: the record it appends, the
registered tags and the material table afterwards. -/
theorem PrepareScene_load_spec (stbi_load : String → Option StbImage) (glGenTextures : Nat → Nat)
    (filename tag : String) (p : PrepareScene.Progress) :
    (PrepareScene.load stbi_load glGenTextures filename tag p).loads =
      p.loads ++ [{ filename := filename, tag := tag,
                    result := CreateGLTexture.supported (stbi_load filename) }] ∧
    registeredTags (PrepareScene.load stbi_load glGenTextures filename tag p).state =
      registeredTags p.state ++
        (if CreateGLTexture.supported (stbi_load filename) = true then [tag] else []) ∧
    (PrepareScene.load stbi_load glGenTextures filename tag p).state.m_objectMaterials =
      p.state.m_objectMaterials := by
  refine ⟨?_, ?_, ?_⟩
  · simp only [PrepareScene.load, CreateGLTexture_result]
  · simp only [PrepareScene.load, CreateGLTexture_registeredTags]
  · simp only [PrepareScene.load, CreateGLTexture_state]
    split_ifs <;> rfl

/-- The six loads of `PrepareScene` from a registry without entries. -/
theorem PrepareScene_textures_spec (stbi_load : String → Option StbImage)
    (glGenTextures : Nat → Nat) (s : State) (h0 : s.m_loadedTextures = 0) :
    (PrepareScene.textures stbi_load glGenTextures s).loads =
      [{ filename := "Resources/stainless_end.jpg", tag := "droneTextureBlack",
         result := CreateGLTexture.supported (stbi_load "Resources/stainless_end.jpg") },
       { filename := "Resources/tilesf2.jpg", tag := "droneTextureTiles",
         result := CreateGLTexture.supported (stbi_load "Resources/tilesf2.jpg") },
       { filename := "Resources/backdrop.jpg", tag := "droneTextureBackDrops",
         result := CreateGLTexture.supported (stbi_load "Resources/backdrop.jpg") },
       { filename := "Resources/pavers.jpg", tag := "droneTextureStainlessEnd",
         result := CreateGLTexture.supported (stbi_load "Resources/pavers.jpg") },
       { filename := "Resources/rusticwood.jpg", tag := "floorTexture",
         result := CreateGLTexture.supported (stbi_load "Resources/rusticwood.jpg") },
       { filename := "Resources/abstract.jpg", tag := "cameraLens",
         result := CreateGLTexture.supported (stbi_load "Resources/abstract.jpg") }] ∧
    registeredTags (PrepareScene.textures stbi_load glGenTextures s).state =
      ((PrepareScene.textures stbi_load glGenTextures s).loads.filter
        (fun l => l.result)).map (fun l => l.tag) ∧
    (PrepareScene.textures stbi_load glGenTextures s).state.m_objectMaterials =
      s.m_objectMaterials := by
  have hreg : registeredTags s = [] := by simp [registeredTags, h0]
  simp only [PrepareScene.textures]
  refine ⟨?_, ?_, ?_⟩
  · simp only [(PrepareScene_load_spec stbi_load glGenTextures _ _ _).1, List.nil_append,
      List.cons_append, List.append_assoc]
  · simp only [(PrepareScene_load_spec stbi_load glGenTextures _ _ _).1,
      (PrepareScene_load_spec stbi_load glGenTextures _ _ _).2.1, hreg, List.nil_append,
      List.cons_append, List.append_assoc]
    cases CreateGLTexture.supported (stbi_load "Resources/stainless_end.jpg") <;>
    cases CreateGLTexture.supported (stbi_load "Resources/tilesf2.jpg") <;>
    cases CreateGLTexture.supported (stbi_load "Resources/backdrop.jpg") <;>
    cases CreateGLTexture.supported (stbi_load "Resources/pavers.jpg") <;>
    cases CreateGLTexture.supported (stbi_load "Resources/rusticwood.jpg") <;>
    cases CreateGLTexture.supported (stbi_load "Resources/abstract.jpg") <;>
    rfl
  · simp only [(PrepareScene_load_spec stbi_load glGenTextures _ _ _).2.2]


/-- On a table that ends with the "default" material and whose other
"default" materials carry the same two values, `FindMaterial "default"`
reports found and hands back ambient strength 0.2 and shininess 32. -/
theorem FindMaterial_default (s : State) (table : List OBJECT_MATERIAL)
    (hs : s.m_objectMaterials = table ++ [droneMaterial])
    (hmat : ∀ m ∈ table, m.tag = "default" → m.ambientStrength = 1 / 5 ∧ m.shininess = 32)
    (material : OBJECT_MATERIAL) :
    (FindMaterial s "default" material).1 = true ∧
    (FindMaterial s "default" material).2.ambientStrength = 1 / 5 ∧
    (FindMaterial s "default" material).2.shininess = 32 := by
  have hlen : s.m_objectMaterials.length ≠ 0 := by simp [hs]
  have hloop := FindMaterial_loop_find s "default" s.m_objectMaterials.length
    { material := material, index := 0, bFound := false } rfl (by simp)
  simp only [List.drop_zero] at hloop
  have hsome : ∃ e, s.m_objectMaterials.find? (fun m => decide (m.tag = "default")) = some e := by
    cases hf : s.m_objectMaterials.find? (fun m => decide (m.tag = "default")) with
    | some e => exact ⟨e, rfl⟩
    | none =>
      have := List.find?_eq_none.mp hf droneMaterial (by simp [hs])
      simp [droneMaterial] at this
  obtain ⟨e, he⟩ := hsome
  have hmem : e ∈ s.m_objectMaterials := List.mem_of_find?_eq_some he
  have htag : e.tag = "default" := by simpa using List.find?_some he
  have hval : e.ambientStrength = 1 / 5 ∧ e.shininess = 32 := by
    rw [hs, List.mem_append, List.mem_singleton] at hmem
    rcases hmem with h | h
    · exact hmat e h htag
    · subst h
      exact ⟨rfl, rfl⟩
  simp only [FindMaterial, hlen, if_false, hloop, he]
  exact ⟨trivial, hval.1, hval.2⟩

/-! ### C15 -/

/-- C15: start `PrepareScene` on a registry without entries and a material
table whose materials tagged "default", if any, already carry ambient
strength 0.2 and shininess 32 (in particular the empty table the constructor
leaves).  Then, whatever each of the six files decodes to: the six calls of
`CreateGLTexture` are made in the fixed order, each succeeding exactly when
its file decodes with 3 or 4 channels; the registry ends holding exactly the
tags of the successful loads, in that order; `FindTextureID` and
`FindTextureSlot` return -1 for the tag of every failed load; the material
"default" is appended to the table, and `FindMaterial "default"` reports found
with ambient strength 0.2 and shininess 32; and the uniforms of the four light
sources are written. -/
theorem C15_PrepareScene_continues_after_failures (stbi_load : String → Option StbImage)
    (glGenTextures : Nat → Nat) (s : State) (material : OBJECT_MATERIAL)
    (h0 : s.m_loadedTextures = 0)
    (hmat : ∀ m ∈ s.m_objectMaterials, m.tag = "default" →
      m.ambientStrength = 1 / 5 ∧ m.shininess = 32) :
    (PrepareScene stbi_load glGenTextures s).loads =
      [{ filename := "Resources/stainless_end.jpg", tag := "droneTextureBlack",
         result := CreateGLTexture.supported (stbi_load "Resources/stainless_end.jpg") },
       { filename := "Resources/tilesf2.jpg", tag := "droneTextureTiles",
         result := CreateGLTexture.supported (stbi_load "Resources/tilesf2.jpg") },
       { filename := "Resources/backdrop.jpg", tag := "droneTextureBackDrops",
         result := CreateGLTexture.supported (stbi_load "Resources/backdrop.jpg") },
       { filename := "Resources/pavers.jpg", tag := "droneTextureStainlessEnd",
         result := CreateGLTexture.supported (stbi_load "Resources/pavers.jpg") },
       { filename := "Resources/rusticwood.jpg", tag := "floorTexture",
         result := CreateGLTexture.supported (stbi_load "Resources/rusticwood.jpg") },
       { filename := "Resources/abstract.jpg", tag := "cameraLens",
         result := CreateGLTexture.supported (stbi_load "Resources/abstract.jpg") }] ∧
    registeredTags (PrepareScene stbi_load glGenTextures s).state =
      ((PrepareScene stbi_load glGenTextures s).loads.filter
        (fun l => l.result)).map (fun l => l.tag) ∧
    (∀ l ∈ (PrepareScene stbi_load glGenTextures s).loads, l.result = false →
      FindTextureID (PrepareScene stbi_load glGenTextures s).state l.tag = -1 ∧
      FindTextureSlot (PrepareScene stbi_load glGenTextures s).state l.tag = -1) ∧
    (PrepareScene stbi_load glGenTextures s).state.m_objectMaterials =
      s.m_objectMaterials ++ [droneMaterial] ∧
    (FindMaterial (PrepareScene stbi_load glGenTextures s).state "default" material).1 = true ∧
    (FindMaterial (PrepareScene stbi_load glGenTextures s).state "default"
      material).2.ambientStrength = 1 / 5 ∧
    (FindMaterial (PrepareScene stbi_load glGenTextures s).state "default"
      material).2.shininess = 32 ∧
    (PrepareScene stbi_load glGenTextures s).commands = PrepareScene.lights ∧
    OpenGL.uniformNames (PrepareScene stbi_load glGenTextures s).commands =
      ["lightSources[0].ambientColor", "lightSources[0].diffuseColor",
       "lightSources[0].specularColor", "lightSources[0].specularIntensity",
       "lightSources[0].focalStrength",
       "lightSources[1].position", "lightSources[1].ambientColor",
       "lightSources[1].diffuseColor", "lightSources[1].specularColor",
       "lightSources[1].focalStrength", "lightSources[1].specularIntensity",
       "lightSources[2].position", "lightSources[2].ambientColor",
       "lightSources[2].diffuseColor", "lightSources[2].specularColor",
       "lightSources[2].focalStrength", "lightSources[2].specularIntensity",
       "lightSources[3].position", "lightSources[3].ambientColor",
       "lightSources[3].diffuseColor", "lightSources[3].specularColor",
       "lightSources[3].focalStrength", "lightSources[3].specularIntensity"] := by
  obtain ⟨hloads, htags, hmats⟩ := PrepareScene_textures_spec stbi_load glGenTextures s h0
  have hstate : (PrepareScene stbi_load glGenTextures s).state.m_objectMaterials =
      s.m_objectMaterials ++ [droneMaterial] := by
    simp only [PrepareScene, hmats]
  have htags1 : registeredTags (PrepareScene stbi_load glGenTextures s).state =
      ((PrepareScene stbi_load glGenTextures s).loads.filter
        (fun l => l.result)).map (fun l => l.tag) := htags
  have hfind := FindMaterial_default (PrepareScene stbi_load glGenTextures s).state
    s.m_objectMaterials hstate hmat material
  refine ⟨hloads, htags1, ?_, hstate, hfind.1, hfind.2.1, hfind.2.2, rfl, rfl⟩
  intro l hl hres
  have hun : Unregistered (PrepareScene stbi_load glGenTextures s).state l.tag := by
    rw [Unregistered_iff_not_mem, htags1]
    have hl1 : l ∈ (PrepareScene.textures stbi_load glGenTextures s).loads := hl
    show l.tag ∉ ((PrepareScene.textures stbi_load glGenTextures s).loads.filter
        (fun l => l.result)).map (fun l => l.tag)
    rw [hloads] at hl1 ⊢
    simp only [List.mem_cons, List.mem_singleton, List.mem_nil_iff, or_false] at hl1
    intro hmem
    simp only [List.mem_map, List.mem_filter, List.mem_cons, List.mem_singleton,
      List.mem_nil_iff, or_false] at hmem
    obtain ⟨l1, ⟨hl1mem, hl1res⟩, hl1tag⟩ := hmem
    rcases hl1 with h | h | h | h | h | h <;> subst h <;>
      rcases hl1mem with h1 | h1 | h1 | h1 | h1 | h1 <;> subst h1 <;>
      simp_all
  exact ⟨by simp [FindTextureID, FindTextureID_run_absent _ _ hun],
    by simp [FindTextureSlot, FindTextureSlot_run_absent _ _ hun]⟩

/-- Witness for C15: with the sample decoder only the floor texture loads;
the registry ends as ["floorTexture"] and "cameraLens" is not found. -/
theorem C15_PrepareScene_continues_after_failures_witness :
    emptyRegistry.m_loadedTextures = 0 ∧
    registeredTags
      (PrepareScene sampleDecoder (fun n => n + 1) emptyRegistry).state = ["floorTexture"] ∧
    FindTextureID (PrepareScene sampleDecoder (fun n => n + 1) emptyRegistry).state
      "cameraLens" = -1 ∧
    (FindMaterial (PrepareScene sampleDecoder (fun n => n + 1) emptyRegistry).state "default"
      blankMaterial).2.shininess = 32 := by
  have h := C15_PrepareScene_continues_after_failures sampleDecoder (fun n => n + 1)
    emptyRegistry blankMaterial rfl (by simp [emptyRegistry])
  refine ⟨rfl, ?_, ?_, h.2.2.2.2.2.2.1⟩
  · rw [h.2.1, h.1]
    rfl
  · exact (h.2.2.1 { filename := "Resources/abstract.jpg", tag := "cameraLens", result := false }
      (by rw [h.1]; simp [sampleDecoder, CreateGLTexture.supported, greyImage]) rfl).1

end SceneManager

/-! ## Properties of a whole frame -/

namespace ViewManager

/-! ### C16 -/

/-- C16: for every view state (so every camera position), keys, frame time
and scene state, in the commands of a frame (`PrepareSceneView` followed by
`RenderScene`) each of the eight draw calls is issued with the uniform
`viewPosition` equal to (0, 6, 5), whether or not `PrepareSceneView` had a
shader manager to write to; when it has one, the value it wrote to
`viewPosition` is the camera position. -/
theorem C16_view_position_constant (lib : CameraLib) (g : ViewLib) (shader : Bool)
    (currentFrame : ℚ) (k : Keys) (v : State) (env : SceneManager.RenderEnv)
    (scene : SceneManager.State) :
    OpenGL.atDraws "viewPosition" none
        (frameCommands lib g shader currentFrame k v env scene) =
      [(OpenGL.Mesh.plane, some (OpenGL.Value.vec3 0 6 5)),
       (OpenGL.Mesh.box, some (OpenGL.Value.vec3 0 6 5)),
       (OpenGL.Mesh.box, some (OpenGL.Value.vec3 0 6 5)),
       (OpenGL.Mesh.cylinder, some (OpenGL.Value.vec3 0 6 5)),
       (OpenGL.Mesh.box, some (OpenGL.Value.vec3 0 6 5)),
       (OpenGL.Mesh.box, some (OpenGL.Value.vec3 0 6 5)),
       (OpenGL.Mesh.box, some (OpenGL.Value.vec3 0 6 5)),
       (OpenGL.Mesh.box, some (OpenGL.Value.vec3 0 6 5))] ∧
    OpenGL.uniformAfter "viewPosition" none
        (PrepareSceneView.uniforms g true (PrepareSceneView lib currentFrame k v)) =
      some (OpenGL.Value.vec3
        (PrepareSceneView lib currentFrame k v).camera.Position.x
        (PrepareSceneView lib currentFrame k v).camera.Position.y
        (PrepareSceneView lib currentFrame k v).camera.Position.z) := by
  have hM := SceneManager.SetShaderMaterial_writes scene env.material "default"
  have h1 := SceneManager.atDraws_skip "viewPosition" _ (fun c hc =>
    (hM c hc).imp fun n h => h.imp fun v h => ⟨h.1, h.2.2.2⟩)
  refine ⟨?_, ?_⟩
  · cases shader <;>
    simp [frameCommands, PrepareSceneView.uniforms, SceneManager.RenderScene,
      SceneManager.RenderScene.floor, SceneManager.RenderDrone, SceneManager.RenderDrone.body,
      SceneManager.RenderDrone.cameraBox, SceneManager.RenderDrone.cameraLens,
      SceneManager.RenderDrone.arm, SceneManager.SetTransformations,
      SceneManager.SetShaderColor, SceneManager.SetTextureUVScale, ShaderManager.setBoolValue,
      ShaderManager.setIntValue, ShaderManager.setVec2Value, ShaderManager.setVec3Value,
      ShaderManager.setVec4Value, ShaderManager.setMat4Value, OpenGL.atDraws, h1]
  · simp [PrepareSceneView.uniforms, ShaderManager.setMat4Value, ShaderManager.setVec3Value,
      OpenGL.uniformAfter]

end ViewManager
